import Mathlib

/-!
Verification of the CI GFIP parsing and reconciliation engine
(`src/main.py`, `src/parsers/ci_gfip_universal.py`) against its
natural-language specification.

The Python code is shallowly embedded: Python `str` is Lean `String`
(a list of characters), `None` is `Option.none`, Python `float`
amounts are modelled by the exact rational they denote (`ℚ`), and the
only operations that can raise an exception in Python are modelled in
an explicit `Except`/`Option` discipline mirroring each `try/except`
of the source.  Character-level helpers below reproduce the semantics
of the Python `str`/`re` primitives that the source uses; they are
ASCII-faithful (the source's keywords and tokens are ASCII; Unicode
case-mapping and Unicode digit classes of Python are not reproduced,
which is noted where relevant).
-/

set_option maxRecDepth 8000

namespace ApiGfip

/-! ### Python string primitives -/

/-- Python whitespace (`str.split`, `str.strip`, `\s`), ASCII part. -/
def ehEspaco (c : Char) : Bool :=
  c = ' ' || c = '\t' || c = '\n' || c = '\r' || c = '\x0b' || c = '\x0c'

/-- Python `[0-9]`; the regexes of the source use `\d` on ASCII tokens. -/
def ehDigito (c : Char) : Bool :=
  c = '0' || c = '1' || c = '2' || c = '3' || c = '4' ||
  c = '5' || c = '6' || c = '7' || c = '8' || c = '9'

/-- Numeric value of a decimal digit character. -/
def valorDigito (c : Char) : Nat := c.toNat - 48

/-- The decimal digit character of a value below ten. -/
def digitoChar : Nat → Char
  | 0 => '0' | 1 => '1' | 2 => '2' | 3 => '3' | 4 => '4'
  | 5 => '5' | 6 => '6' | 7 => '7' | 8 => '8' | _ => '9'

/-- ASCII lower-casing of one character (Python `str.lower`, ASCII part). -/
def minuscula (c : Char) : Char :=
  if 'A' ≤ c && c ≤ 'Z' then Char.ofNat (c.toNat + 32) else c

/-- ASCII upper-casing of one character (Python `str.upper`, ASCII part). -/
def maiuscula (c : Char) : Char :=
  if 'a' ≤ c && c ≤ 'z' then Char.ofNat (c.toNat - 32) else c

def paraMinusculas (l : List Char) : List Char := l.map minuscula

def paraMaiusculas (l : List Char) : List Char := l.map maiuscula

/-- Python `str.upper` on a whole string. -/
def paraMaiusculasStr (s : String) : String := ⟨paraMaiusculas s.data⟩

/-- Python `a.startswith(b)`. -/
def comecaCom : List Char → List Char → Bool
  | [], _ => true
  | _ :: _, [] => false
  | p :: ps, c :: cs => p = c && comecaCom ps cs

/-- Python substring containment `sub in s`. -/
def contem (sub : List Char) : List Char → Bool
  | [] => sub.isEmpty
  | c :: t => comecaCom sub (c :: t) || contem sub t

/-- Case-insensitive prefix match (Python `re.IGNORECASE`, ASCII part). -/
def coincideCI : List Char → List Char → Bool
  | [], _ => true
  | _ :: _, [] => false
  | p :: ps, c :: cs => minuscula p = minuscula c && coincideCI ps cs

/-- Python `str.strip()`. -/
def tiraEspacos (l : List Char) : List Char :=
  ((l.dropWhile ehEspaco).reverse.dropWhile ehEspaco).reverse

/-- Python `str.strip()` on a whole string. -/
def tiraEspacosStr (s : String) : String := ⟨tiraEspacos s.data⟩

/-- Python `str.split()` (split on whitespace runs, no empty parts). -/
def separaEspacosAux : List Char → List Char → List String
  | [], acc => if acc.isEmpty then [] else [⟨acc.reverse⟩]
  | c :: t, acc =>
    if ehEspaco c then
      if acc.isEmpty then separaEspacosAux t []
      else ⟨acc.reverse⟩ :: separaEspacosAux t []
    else separaEspacosAux t (c :: acc)

def separaEspacos (l : List Char) : List String := separaEspacosAux l []

def separaEspacosStr (s : String) : List String := separaEspacos s.data

/-- Python line-break characters recognised by `str.splitlines`. -/
def ehQuebraLinha (c : Char) : Bool :=
  c = '\n' || c = '\r' || c = '\x0b' || c = '\x0c' ||
  c = '\x1c' || c = '\x1d' || c = '\x1e' || c = '\x85' ||
  c = ' ' || c = ' '

/-- Python `str.splitlines()` (a final line break opens no empty line). -/
def separaLinhasAux : List Char → List Char → List String
  | [], acc => if acc.isEmpty then [] else [⟨acc.reverse⟩]
  | '\r' :: '\n' :: t, acc => ⟨acc.reverse⟩ :: separaLinhasAux t []
  | c :: t, acc =>
    if ehQuebraLinha c then ⟨acc.reverse⟩ :: separaLinhasAux t []
    else separaLinhasAux t (c :: acc)

def separaLinhas (s : String) : List String := separaLinhasAux s.data []

theorem comprimento_dropWhile_le (p : Char → Bool) (l : List Char) :
    (l.dropWhile p).length ≤ l.length := by
  induction l with
  | nil => simp [List.dropWhile]
  | cons c t ih =>
    by_cases h : p c
    · simp only [List.dropWhile_cons, h, if_true]
      exact Nat.le_succ_of_le ih
    · simp [List.dropWhile_cons, h]

/-- Python `re.split(r"\s{2,}", s)`: pieces separated by runs of at
least two whitespace characters; single whitespace stays in a piece.
Structural recursion on a fuel that the wrapper sets to the input
length, which each step strictly consumes. -/
def separaDuplosEspacosAux : Nat → List Char → List Char → List String
  | _, [], acc => [⟨acc.reverse⟩]
  | _, [a], acc => [⟨(a :: acc).reverse⟩]
  | 0, l, acc => [⟨(acc.reverse ++ l)⟩]
  | fuel + 1, a :: b :: t, acc =>
    if ehEspaco a && ehEspaco b then
      ⟨acc.reverse⟩ :: separaDuplosEspacosAux fuel ((b :: t).dropWhile ehEspaco) []
    else
      separaDuplosEspacosAux fuel (b :: t) (a :: acc)

/-- Python `re.split(r"\s{2,}", s)`. -/
def separaDuplosEspacos (l : List Char) : List String :=
  separaDuplosEspacosAux l.length l []

/-- Python `s.split(sep)` for a one-character separator. -/
def separaChar (sep : Char) : List Char → List (List Char)
  | [] => [[]]
  | c :: t =>
    match separaChar sep t with
    | [] => [[c]]
    | p :: ps => if c = sep then [] :: p :: ps else (c :: p) :: ps

/-- Python `str.zfill` on a digit string (the source only applies it to
digit-only strings, so the sign handling of `zfill` never fires). -/
def preencheZeros (w : Nat) (l : List Char) : List Char :=
  if l.length < w then List.replicate (w - l.length) '0' ++ l else l

/-- Python `s.replace(alvo, sub)`: all non-overlapping occurrences,
left to right.  The source only replaces non-empty patterns.
Structural recursion on a fuel that the wrapper sets to the input
length, which each step strictly consumes. -/
def substituiAux (alvo sub : List Char) : Nat → List Char → List Char
  | _, [] => []
  | 0, l => l
  | fuel + 1, c :: resto =>
    if alvo ≠ [] && comecaCom alvo (c :: resto) then
      sub ++ substituiAux alvo sub fuel ((c :: resto).drop alvo.length)
    else
      c :: substituiAux alvo sub fuel resto

def substitui (alvo sub l : List Char) : List Char :=
  substituiAux alvo sub l.length l

/-! ### Decimal printing and Python `int()` parsing -/

/-- Little-endian decimal digits of a natural number; structural
recursion on a fuel the wrapper sets to the number itself, strictly
more than the digit count. -/
def natParaDigitosAux : Nat → Nat → List Char
  | 0, n => [digitoChar n]
  | fuel + 1, n =>
    if n < 10 then [digitoChar n]
    else digitoChar (n % 10) :: natParaDigitosAux fuel (n / 10)

/-- Decimal digit string of a natural number (no padding, as printed by
`strftime("%Y")` under glibc and by Python's `int` repr). -/
def natParaDigitos (n : Nat) : List Char := (natParaDigitosAux n n).reverse

/-- Signed decimal digit string of an integer. -/
def intParaDigitos (i : Int) : List Char :=
  if i < 0 then '-' :: natParaDigitos i.natAbs else natParaDigitos i.natAbs

/-- Value of a big-endian decimal digit string. -/
def valorDigitos (l : List Char) : Nat :=
  l.foldl (fun a c => 10 * a + valorDigito c) 0

/-- Value of a little-endian decimal digit string. -/
def valorDigitosLE : List Char → Nat
  | [] => 0
  | c :: t => valorDigito c + 10 * valorDigitosLE t

/-- Layout check of Python `int()` digit strings: decimal digits with
single underscores strictly between digits. -/
def digitosValidos (l : List Char) : Bool :=
  !l.isEmpty &&
  l.all (fun c => ehDigito c || c = '_') &&
  (match l.head? with | some c => ehDigito c | none => false) &&
  (match l.getLast? with | some c => ehDigito c | none => false) &&
  (l.zip l.tail).all (fun p => !(p.1 = '_' && p.2 = '_'))

/-- Python `int(s)`: surrounding whitespace, an optional sign, decimal
digits with optional grouping underscores; anything else raises
`ValueError`, modelled as `none`. -/
def pyIntParse (s : String) : Option Int :=
  let t := tiraEspacos s.data
  if t.head? = some '+' then
    if digitosValidos t.tail then
      some (Int.ofNat (valorDigitos (t.tail.filter (fun c => c ≠ '_'))))
    else none
  else if t.head? = some '-' then
    if digitosValidos t.tail then
      some (-(Int.ofNat (valorDigitos (t.tail.filter (fun c => c ≠ '_')))))
    else none
  else
    if digitosValidos t then
      some (Int.ofNat (valorDigitos (t.filter (fun c => c ≠ '_'))))
    else none

/-! ### `datetime.strptime` for the formats the source uses

CPython's `_strptime` compiles `%m` to the regex `1[0-2]|0[1-9]|[1-9]`,
`%d` to `3[01]|[12]\d|0[1-9]|[1-9]` and `%Y` to exactly four digits;
the whole input must be consumed and the resulting calendar date must
be valid (year at least 1).  The matchers below reproduce those
regexes, including the backtracking from a two-digit to a one-digit
month/day when the remainder fails. -/

/-- The `%m` two-digit alternatives `1[0-2]|0[1-9]`. -/
def mesDoisDigitos (a b : Char) : Option Nat :=
  if a = '1' && (b = '0' || b = '1' || b = '2') then some (10 + valorDigito b)
  else if a = '0' && (ehDigito b && b ≠ '0') then some (valorDigito b)
  else none

/-- The `%m` one-digit alternative `[1-9]`. -/
def mesUmDigito (a : Char) : Option Nat :=
  if ehDigito a && a ≠ '0' then some (valorDigito a) else none

/-- A literal separator followed by exactly the four digits of `%Y`,
consuming the whole rest of the input. -/
def anoQuatro (sep : Char) : List Char → Option Nat
  | [c, d1, d2, d3, d4] =>
    if c = sep && (ehDigito d1 && ehDigito d2 && ehDigito d3 && ehDigito d4) then
      some (1000 * valorDigito d1 + 100 * valorDigito d2 +
            10 * valorDigito d3 + valorDigito d4)
    else none
  | _ => none

/-- Regex match of `%m<sep>%Y` over the whole input. -/
def casaMesAno (sep : Char) : List Char → Option (Nat × Nat)
  | a :: b :: resto =>
    match mesDoisDigitos a b, anoQuatro sep resto with
    | some m, some y => some (m, y)
    | _, _ =>
      match mesUmDigito a, anoQuatro sep (b :: resto) with
      | some m, some y => some (m, y)
      | _, _ => none
  | _ => none

/-- `datetime.strptime(s, "%m<sep>%Y")`: the regex match plus the
`datetime` constructor check `year ≥ 1` (`%Y` caps the year at 9999). -/
def strptimeMesAno (sep : Char) (l : List Char) : Option (Nat × Nat) :=
  match casaMesAno sep l with
  | some (m, y) => if 1 ≤ y then some (m, y) else none
  | none => none

/-- `strftime("%m")`/`"%d"`: two digits, zero padded. -/
def pad2 (m : Nat) : List Char :=
  if m < 10 then '0' :: natParaDigitos m else natParaDigitos m

/-- `strftime("%Y-%m-01")` of the first day of month `m` of year `y`.
Under glibc (the platform of this service) `%Y` prints the year
unpadded, e.g. year 23 prints as `23`. -/
def isoPrimeiroDia (m y : Nat) : String :=
  ⟨natParaDigitos y ++ '-' :: (pad2 m ++ '-' :: ['0', '1'])⟩

/-- `normalizar_competencia` (`ci_gfip_universal.py` lines 16-31):
accepts `%m/%Y` then `%m-%Y` on the stripped input, returning the ISO
first day of the month and the stripped literal; `None`/empty input
returns `(None, "")`. -/
def normalizar_competencia (comp_str : Option String) : Option String × String :=
  match comp_str with
  | none => (none, "")
  | some s =>
    if s = "" then (none, "")
    else
      let t := tiraEspacos s.data
      match strptimeMesAno '/' t with
      | some (m, y) => (some (isoPrimeiroDia m y), ⟨t⟩)
      | none =>
        match strptimeMesAno '-' t with
        | some (m, y) => (some (isoPrimeiroDia m y), ⟨t⟩)
        | none => (none, ⟨t⟩)

/-- The `%d` two-digit alternatives `3[01]|[12]\d|0[1-9]`. -/
def diaDoisDigitos (a b : Char) : Option Nat :=
  if a = '3' && (b = '0' || b = '1') then some (30 + valorDigito b)
  else if (a = '1' || a = '2') && ehDigito b then
    some (10 * valorDigito a + valorDigito b)
  else if a = '0' && (ehDigito b && b ≠ '0') then some (valorDigito b)
  else none

/-- The `%d` one-digit alternative `[1-9]`. -/
def diaUmDigito (a : Char) : Option Nat :=
  if ehDigito a && a ≠ '0' then some (valorDigito a) else none

/-- A literal separator followed by `%m<sep>%Y`. -/
def sepMesAno (sep : Char) : List Char → Option (Nat × Nat)
  | c :: resto => if c = sep then casaMesAno sep resto else none
  | [] => none

/-- Regex match of `%d<sep>%m<sep>%Y` over the whole input. -/
def casaDiaMesAno (sep : Char) : List Char → Option (Nat × Nat × Nat)
  | a :: b :: resto =>
    match diaDoisDigitos a b, sepMesAno sep resto with
    | some d, some (m, y) => some (d, m, y)
    | _, _ =>
      match diaUmDigito a, sepMesAno sep (b :: resto) with
      | some d, some (m, y) => some (d, m, y)
      | _, _ => none
  | _ => none

/-- Gregorian month lengths, as enforced by the `datetime` constructor. -/
def diasNoMes (ano mes : Nat) : Nat :=
  if mes = 2 then
    if (ano % 4 = 0 && ano % 100 ≠ 0) || ano % 400 = 0 then 29 else 28
  else if mes = 4 || mes = 6 || mes = 9 || mes = 11 then 30
  else 31

/-- `datetime.strptime(s, "%d<sep>%m<sep>%Y")` with date validity. -/
def strptimeDiaMesAno (sep : Char) (l : List Char) : Option (Nat × Nat × Nat) :=
  match casaDiaMesAno sep l with
  | some (d, m, y) => if 1 ≤ y && d ≤ diasNoMes y m then some (d, m, y) else none
  | none => none

/-- `normalizar_data` (`ci_gfip_universal.py` lines 34-49): accepts
`%d/%m/%Y` then `%d-%m-%Y` on the stripped input. -/
def normalizar_data (ddmmaaaa : Option String) : Option String × String :=
  match ddmmaaaa with
  | none => (none, "")
  | some s =>
    if s = "" then (none, "")
    else
      let t := tiraEspacos s.data
      match strptimeDiaMesAno '/' t with
      | some (d, m, y) =>
        (some ⟨natParaDigitos y ++ '-' :: (pad2 m ++ '-' :: pad2 d)⟩, ⟨t⟩)
      | none =>
        match strptimeDiaMesAno '-' t with
        | some (d, m, y) =>
          (some ⟨natParaDigitos y ++ '-' :: (pad2 m ++ '-' :: pad2 d)⟩, ⟨t⟩)
        | none => (none, ⟨t⟩)

/-! ### `Decimal(txt)` and `normalizar_moeda` -/

/-- Parse of a finite decimal numeric literal, as accepted by Python's
`Decimal` constructor (surrounding whitespace and all underscores are
removed first; optional sign; digits with at most one point, at least
one digit; optional decimal exponent).  The special literals
`Inf`/`Infinity`/`NaN`, which `Decimal` also accepts and `float`
converts to non-finite doubles, are outside the rational value domain
of this model and map to `none`; no claim below depends on them.  The
resulting value is the exact rational the literal denotes (the
subsequent Python `float()` rounds it to the nearest double and only
raises on decimals beyond the double range, which is likewise not
reproduced on the exact-rational domain). -/
def decimalParse (l : List Char) : Option ℚ :=
  let t := (tiraEspacos l).filter (fun c => c ≠ '_')
  let neg := t.head? == some '-'
  let resto := if (t.head? == some '+') || (t.head? == some '-') then t.tail else t
  let mantissa := resto.takeWhile (fun c => !(c = 'e' || c = 'E'))
  let expoente := resto.drop mantissa.length
  let parteInt := mantissa.takeWhile (fun c => c ≠ '.')
  let parteFrac := mantissa.drop (parteInt.length + 1)
  let mantOk := parteInt.all ehDigito && parteFrac.all ehDigito &&
    (!parteInt.isEmpty || !parteFrac.isEmpty)
  let expoOk :=
    match expoente with
    | [] => some (0 : Int)
    | _ :: ex =>
      let exNeg := ex.head? == some '-'
      let exDig := if (ex.head? == some '+') || (ex.head? == some '-') then ex.tail else ex
      if !exDig.isEmpty && exDig.all ehDigito then
        some (if exNeg then -(Int.ofNat (valorDigitos exDig))
              else Int.ofNat (valorDigitos exDig))
      else none
  match expoOk with
  | none => none
  | some e =>
    if mantOk then
      let m : Int := Int.ofNat
        (valorDigitos parteInt * 10 ^ parteFrac.length + valorDigitos parteFrac)
      let v : ℚ :=
        if 0 ≤ e then
          mkRat (m * Int.ofNat (10 ^ e.toNat)) (10 ^ parteFrac.length)
        else
          mkRat m (10 ^ parteFrac.length * 10 ^ (-e).toNat)
      some (if neg then -v else v)
    else none

/-- `normalizar_moeda` (`ci_gfip_universal.py` lines 52-63): strips the
literal, removes `R$` and the thousands points, turns the decimal
comma into a point and parses; failure yields `None` with the stripped
literal preserved. -/
def normalizar_moeda (valor : Option String) : Option ℚ × String :=
  match valor with
  | none => (none, "")
  | some s =>
    if s = "" then (none, "")
    else
      let bruto := tiraEspacos s.data
      let txt := substitui [','] ['.'] (substitui ['.'] [] (substitui ['R', '$'] [] bruto))
      match decimalParse txt with
      | some q => (some q, ⟨bruto⟩)
      | none => (none, ⟨bruto⟩)

/-- `so_numeros` (`ci_gfip_universal.py` lines 10-13): keep the decimal
digits (Python's `\D` class on ASCII input). -/
def so_numeros (valor : Option String) : String :=
  match valor with
  | none => ""
  | some s => if s = "" then "" else ⟨s.data.filter ehDigito⟩

/-- `normalizar_documento_tomador` (`ci_gfip_universal.py` lines
66-97): classification of the taxpayer document by digit count. -/
def normalizar_documento_tomador (valor : Option String) : String × String :=
  match valor with
  | none => ("", "DESCONHECIDO")
  | some s =>
    if s = "" then ("", "DESCONHECIDO")
    else
      let numeros := (so_numeros (some s)).data
      if numeros.length = 14 then (⟨numeros⟩, "CNPJ_COMPLETO")
      else if numeros.length = 12 then (⟨numeros⟩, "CEI")
      else if numeros.length = 11 then (⟨numeros⟩, "CPF")
      else if numeros.length ≤ 8 then (⟨preencheZeros 8 numeros⟩, "CNPJ_RAIZ")
      else if 9 ≤ numeros.length && numeros.length ≤ 13 then
        (⟨preencheZeros 8 (numeros.take 8)⟩, "CNPJ_RAIZ")
      else (⟨numeros⟩, "DESCONHECIDO")

/-! ### Exceptions and the record/result data model

`Py α` is the result of a Python computation that may raise: the only
statements of the parser that can raise outside of a `try` block are
`partes[0]` (an `IndexError`) — every other fallible statement sits
inside a `try/except: continue` whose observable effect is dropping
the row, modelled by `Option`. -/

abbrev Py (α : Type) : Type := Except String α

/-- A raise-capable Python subscript `l[i]`. -/
def pyGet (l : List α) (i : Nat) : Py α :=
  match l.get? i with
  | some x => .ok x
  | none => .error "IndexError"

/-- One row of the parsed table (the per-row dict that both parsers of
`ci_gfip_universal.py` append to `linhas`/`registros`).  Fields that
some code path leaves as `None` are `Option`s. -/
structure Registro where
  fonte : String
  numero_documento : Option String
  nit : String
  competencia_literal : String
  competencia_date : Option String
  competencia_ano : Option Int
  competencia_mes : Option Int
  documento_tomador : Option String
  documento_tomador_tipo : Option String
  fpas : Option String
  categoria_codigo : Option String
  codigo_gfip : Option String
  data_envio_literal : Option String
  data_envio_date : Option String
  tipo_remuneracao : Option String
  remuneracao_literal : String
  remuneracao : Option ℚ
  valor_retido_literal : String
  valor_retido : Option ℚ
  extemporaneo_literal : Option String
  extemporaneo : Option Bool
deriving Repr, DecidableEq

/-- The person-level header dict of both parsers (`modelo_1`
initialises the fields to `""`, `modelo_2` to `None`). -/
structure Cabecalho where
  nit : Option String
  nome : Option String
  nome_mae : Option String
  data_nascimento : Option String
  cpf : Option String
deriving Repr, DecidableEq

/-- The dict returned by `parse_ci_gfip`; a field is `none` when the
corresponding key is absent from the returned dict. -/
structure ParseResultado where
  cabecalho : Option Cabecalho
  linhas : Option (List Registro)
  total_linhas : Option Nat
  layout : Option String
  erro : Option String
deriving Repr, DecidableEq

/-! ### Layout detection -/

/-- `detectar_layout_ci_gfip` (`ci_gfip_universal.py` lines 104-119). -/
def detectar_layout_ci_gfip (texto : String) : String :=
  let up := paraMaiusculas texto.data
  if contem "CONSULTA VALORES CI GFIP/ESOCIAL/INSS".data up then "modelo_2"
  else if contem "COMPET".data up && contem "FPAS".data up && contem "CATEG".data up then
    "modelo_1"
  else "layout_nao_identificado"

/-! ### Row assembly for layout `modelo_2` -/

/-- `int(comp_date.split("-")[0]) if comp_date else None` — the year
component of a normalised competency; inside the row's `try`, so any
failure is an exception, here an outer `none`. -/
def anoCompetencia (comp_date : Option String) : Option (Option Int) :=
  match comp_date with
  | none => some none
  | some d => do
    let s ← (separaChar '-' d.data).get? 0
    let n ← pyIntParse ⟨s⟩
    some (some n)

/-- `int(comp_date.split("-")[1]) if comp_date else None`. -/
def mesCompetencia (comp_date : Option String) : Option (Option Int) :=
  match comp_date with
  | none => some none
  | some d => do
    let s ← (separaChar '-' d.data).get? 1
    let n ← pyIntParse ⟨s⟩
    some (some n)

/-- The shared normalisation block of `_linhas_modelo_2`
(`ci_gfip_universal.py` lines 365-407), applied to the column tokens
selected by the channel branch; an outer `none` is an exception inside
the row's `try` block. -/
def montarRegistro2 (fonte numero_documento nit_raw competencia doc_tomador_raw
    fpas categoria : String) (codigo_gfip : Option String)
    (data_envio_lit tipo_rem remun_txt valor_retido_txt extemp_txt : String) :
    Option Registro := do
  let (comp_date, comp_literal) := normalizar_competencia (some competencia)
  let (data_envio_date, data_envio_literal) := normalizar_data (some data_envio_lit)
  let (remuneracao, remuneracao_literal) := normalizar_moeda (some remun_txt)
  let (valor_retido, valor_retido_literal) := normalizar_moeda (some valor_retido_txt)
  let (doc_tomador, doc_tomador_tipo) := normalizar_documento_tomador (some doc_tomador_raw)
  let extemp_literal := tiraEspacosStr extemp_txt
  let extemporaneo :=
    if extemp_literal ≠ "" then comecaCom ['s'] (paraMinusculas extemp_literal.data)
    else false
  let competencia_ano ← anoCompetencia comp_date
  let competencia_mes ← mesCompetencia comp_date
  some
    { fonte := fonte
      numero_documento := some numero_documento
      nit := so_numeros (some nit_raw)
      competencia_literal := comp_literal
      competencia_date := comp_date
      competencia_ano := competencia_ano
      competencia_mes := competencia_mes
      documento_tomador := some doc_tomador
      documento_tomador_tipo := some doc_tomador_tipo
      fpas := some fpas
      categoria_codigo := some categoria
      codigo_gfip := codigo_gfip
      data_envio_literal := some data_envio_literal
      data_envio_date := data_envio_date
      tipo_remuneracao := some tipo_rem
      remuneracao_literal := remuneracao_literal
      remuneracao := remuneracao
      valor_retido_literal := valor_retido_literal
      valor_retido := valor_retido
      extemporaneo_literal := some extemp_literal
      extemporaneo := some extemporaneo }

/-- The `try` block of `_linhas_modelo_2` (lines 331-407): channel
branch selection by source tag and token count, then assembly.  The
`except Exception: continue` handler of the source drops the row on
any failure, so the block's observable result is an `Option`; the
"Linha estranha" else-branch likewise yields no record. -/
def tentaRegistroModelo2 (fonte : String) (partes : List String) : Option Registro :=
  if fonte = "GFIP" && partes.length ≥ 13 then do
    let numero_documento ← partes.get? 1
    let nit_raw ← partes.get? 2
    let competencia ← partes.get? 3
    let doc_tomador_raw ← partes.get? 4
    let fpas ← partes.get? 5
    let categoria ← partes.get? 6
    let codigo_gfip ← partes.get? 7
    let data_envio_lit ← partes.get? 8
    let tipo_rem ← partes.get? 9
    let remun_txt ← partes.get? 10
    let valor_retido_txt ← partes.get? 11
    let extemp_txt ← if partes.length > 12 then partes.get? 12 else some ""
    montarRegistro2 fonte numero_documento nit_raw competencia doc_tomador_raw
      fpas categoria (some codigo_gfip) data_envio_lit tipo_rem remun_txt
      valor_retido_txt extemp_txt
  else if fonte = "ESOCIAL" && partes.length ≥ 12 then do
    let numero_documento ← partes.get? 1
    let nit_raw ← partes.get? 2
    let competencia ← partes.get? 3
    let doc_tomador_raw ← partes.get? 4
    let fpas ← partes.get? 5
    let categoria ← partes.get? 6
    let data_envio_lit ← partes.get? 7
    let tipo_rem ← partes.get? 8
    let remun_txt ← partes.get? 9
    let valor_retido_txt ← partes.get? 10
    let extemp_txt ← partes.get? 11
    montarRegistro2 fonte numero_documento nit_raw competencia doc_tomador_raw
      fpas categoria none data_envio_lit tipo_rem remun_txt
      valor_retido_txt extemp_txt
  else none

/-- One in-table line of `_linhas_modelo_2` (lines 319-410): footer
skip, whitespace tokenisation, the raise-capable `partes[0]` guarded
by the emptiness check, the source-tag filter, and the `try` block. -/
def linha_para_registro (linha : String) : Py (Option Registro) :=
  if comecaCom "Página ".data linha.data then .ok none
  else
    let partes := separaEspacosStr linha
    if partes.isEmpty then .ok none
    else
      match pyGet partes 0 with
      | .error e => .error e
      | .ok p0 =>
        let fonte := paraMaiusculasStr p0
        if fonte ≠ "GFIP" && fonte ≠ "ESOCIAL" then .ok none
        else .ok (tentaRegistroModelo2 fonte partes)

/-- The table-header test of `_linhas_modelo_2` (lines 306-314). -/
def ehCabecalhoTabela2 (linha : String) : Bool :=
  let up := paraMaiusculas linha.data
  contem "FONTE".data up && contem "NIT".data up &&
  contem "COMPET".data up && contem "VALOR RETIDO".data up

/-- The line loop of `_linhas_modelo_2` with its `in_table` flag. -/
def linhasModelo2Loop : List String → Bool → Py (List Registro)
  | [], _ => .ok []
  | raw :: resto, in_table =>
    let linha := tiraEspacosStr raw
    if linha = "" then linhasModelo2Loop resto in_table
    else if ehCabecalhoTabela2 linha then linhasModelo2Loop resto true
    else if !in_table then linhasModelo2Loop resto false
    else
      match linha_para_registro linha with
      | .error e => .error e
      | .ok none => linhasModelo2Loop resto in_table
      | .ok (some r) =>
        match linhasModelo2Loop resto in_table with
        | .error e => .error e
        | .ok rs => .ok (r :: rs)

/-- `_linhas_modelo_2` (`ci_gfip_universal.py` lines 291-412). -/
def linhas_modelo_2 (texto : String) : Py (List Registro) :=
  linhasModelo2Loop (separaLinhas texto) false

/-! ### Header extraction

The searches below reproduce the `re.search` calls of the source on
their regexes.  In each pattern the separator class (`[: ]` or
`[:\s]`) and the capture class are matched greedily; Python's regex
engine can additionally backtrack the separator run into the capture
when the two classes overlap (only possible for the `CPF` pattern of
`parse_modelo_1`, whose capture class contains the space), a
pathological case documented here and not reproduced. -/

/-- Leftmost occurrence of a case-insensitive keyword followed by at
least one separator-class character and a non-empty greedy
capture-class run; the capture is returned. -/
def buscaCaptura (kw : List Char) (sepP capP : Char → Bool) : List Char → Option (List Char)
  | [] => none
  | c :: resto =>
    let s := c :: resto
    let aqui :=
      if coincideCI kw s then
        let depois := s.drop kw.length
        let seps := depois.takeWhile sepP
        let cap := (depois.drop seps.length).takeWhile capP
        if !seps.isEmpty && !cap.isEmpty then some cap else none
      else none
    match aqui with
    | some cap => some cap
    | none => buscaCaptura kw sepP capP resto

/-- The pattern `\d{2}/\d{2}/\d{4}`: leftmost ten-character window. -/
def buscaData10 : List Char → Option (List Char)
  | d1 :: d2 :: b :: d3 :: d4 :: b2 :: d5 :: d6 :: d7 :: d8 :: resto =>
    if ehDigito d1 && ehDigito d2 && b = '/' && ehDigito d3 && ehDigito d4 &&
       b2 = '/' && ehDigito d5 && ehDigito d6 && ehDigito d7 && ehDigito d8 then
      some [d1, d2, b, d3, d4, b2, d5, d6, d7, d8]
    else
      match (d1 :: d2 :: b :: d3 :: d4 :: b2 :: d5 :: d6 :: d7 :: d8 :: resto) with
      | _ :: t => buscaData10 t
      | [] => none
  | _ => none

def sepDoisPontosEspaco (c : Char) : Bool := c = ':' || c = ' '

def sepDoisPontosBranco (c : Char) : Bool := c = ':' || ehEspaco c

def capDigitosPontoTraco (c : Char) : Bool := ehDigito c || c = '.' || c = '-'

/-- As `buscaCaptura`, but with an arbitrary keyword matcher (the
`CPF` search of `parse_modelo_1` is the one search compiled without
`re.IGNORECASE`). -/
def buscaCapturaCom (casa : List Char → Bool) (kwLen : Nat)
    (sepP capP : Char → Bool) : List Char → Option (List Char)
  | [] => none
  | c :: resto =>
    let s := c :: resto
    let aqui :=
      if casa s then
        let depois := s.drop kwLen
        let seps := depois.takeWhile sepP
        let cap := (depois.drop seps.length).takeWhile capP
        if !seps.isEmpty && !cap.isEmpty then some cap else none
      else none
    match aqui with
    | some cap => some cap
    | none => buscaCapturaCom casa kwLen sepP capP resto

/-- The continuation `\s+Data de Nascimento[: ]+\d{2}/\d{2}/\d{4}` of
the `m_nome` search of `_cabecalho_modelo_2`, matched at the start of
the input; returns the captured date literal. -/
def casaDataNasc (l : List Char) : Option (List Char) :=
  let ws := l.takeWhile ehEspaco
  if ws.isEmpty then none
  else
    let depois := l.drop ws.length
    if coincideCI "Data de Nascimento".data depois then
      let d2 := depois.drop 18
      let seps := d2.takeWhile sepDoisPontosEspaco
      if seps.isEmpty then none
      else
        match d2.drop seps.length with
        | d1 :: d2' :: b :: d3 :: d4 :: b2 :: d5 :: d6 :: d7 :: d8 :: _ =>
          if ehDigito d1 && ehDigito d2' && b = '/' && ehDigito d3 && ehDigito d4 &&
             b2 = '/' && ehDigito d5 && ehDigito d6 && ehDigito d7 && ehDigito d8 then
            some [d1, d2', b, d3, d4, b2, d5, d6, d7, d8]
          else none
        | _ => none
    else none

/-- The continuation `\s+CPF[: ]` of the `m_mae` search. -/
def casaCpfDepois (l : List Char) : Option (List Char) :=
  let ws := l.takeWhile ehEspaco
  if ws.isEmpty then none
  else
    let depois := l.drop ws.length
    if coincideCI "CPF".data depois then
      match (depois.drop 3).head? with
      | some c => if sepDoisPontosEspaco c then some [] else none
      | none => none
    else none

/-- The lazy group `(.+?)` (with `re.DOTALL`): grow the capture one
character at a time until the continuation matches; minimal first. -/
def lacoCaptura (cont : List Char → Option (List Char)) (cap : List Char) :
    List Char → Option (List Char × List Char)
  | [] => none
  | c :: resto =>
    let cap' := cap ++ [c]
    match cont resto with
    | some a => some (cap', a)
    | none => lacoCaptura cont cap' resto

/-- The `m_nome` search of `_cabecalho_modelo_2` (lines 265-274):
`Nome[: ]+(.+?)\s+Data de Nascimento[: ]+(\d{2}/\d{2}/\d{4})`,
case-insensitive, dot matching anything. -/
def buscaNomeDataNasc : List Char → Option (List Char × List Char)
  | [] => none
  | c :: resto =>
    let s := c :: resto
    let aqui :=
      if coincideCI "Nome".data s then
        let depois := s.drop 4
        let seps := depois.takeWhile sepDoisPontosEspaco
        if seps.isEmpty then none
        else lacoCaptura casaDataNasc [] (depois.drop seps.length)
      else none
    match aqui with
    | some r => some r
    | none => buscaNomeDataNasc resto

/-- The `m_mae` search of `_cabecalho_modelo_2` (lines 276-282):
`Nome da M[ãa]e[: ]+(.+?)\s+CPF[: ]`. -/
def buscaNomeMae : List Char → Option (List Char)
  | [] => none
  | c :: resto =>
    let s := c :: resto
    let aqui :=
      if coincideCI "Nome da Mãe".data s || coincideCI "Nome da Mae".data s then
        let depois := s.drop 11
        let seps := depois.takeWhile sepDoisPontosEspaco
        if seps.isEmpty then none
        else (lacoCaptura casaCpfDepois [] (depois.drop seps.length)).map (·.1)
      else none
    match aqui with
    | some r => some r
    | none => buscaNomeMae resto

/-- `_cabecalho_modelo_2` (`ci_gfip_universal.py` lines 247-288). -/
def cabecalho_modelo_2 (texto : String) : Cabecalho :=
  let t := texto.data
  let nit := (buscaCaptura "Nit".data sepDoisPontosEspaco capDigitosPontoTraco t).map
    (fun cap => so_numeros (some ⟨cap⟩))
  let nomeDn := buscaNomeDataNasc t
  { nit := nit
    nome := nomeDn.map (fun p => tiraEspacosStr ⟨p.1⟩)
    nome_mae := (buscaNomeMae t).map (fun cap => tiraEspacosStr ⟨cap⟩)
    data_nascimento := nomeDn.bind (fun p => (normalizar_data (some (tiraEspacosStr ⟨p.2⟩))).1)
    cpf := (buscaCaptura "CPF".data sepDoisPontosEspaco capDigitosPontoTraco t).map
      (fun cap => tiraEspacosStr ⟨cap⟩) }

/-- `parse_ci_gfip_modelo_2` (`ci_gfip_universal.py` lines 415-429). -/
def parse_ci_gfip_modelo_2 (texto : String) : Py ParseResultado :=
  match linhas_modelo_2 texto with
  | .error e => .error e
  | .ok linhas =>
    .ok { cabecalho := some (cabecalho_modelo_2 texto)
          linhas := some linhas
          total_linhas := some linhas.length
          layout := some "modelo_2"
          erro := none }

/-! ### Parser for layout `modelo_1` -/

/-- One header-scanning step of `parse_modelo_1` (lines 148-172): each
label is looked for independently on the line, later lines overwrite
earlier finds. -/
def cabecalhoModelo1Passo (cab : Cabecalho) (linha : String) : Cabecalho :=
  let l := linha.data
  let up := paraMaiusculas l
  let cab :=
    if contem "NIT".data up then
      match buscaCaptura "NIT".data sepDoisPontosBranco capDigitosPontoTraco l with
      | some cap => { cab with nit := some (so_numeros (some ⟨cap⟩)) }
      | none => cab
    else cab
  let cab :=
    if contem "NOME".data up && !contem "MAE".data up then
      match buscaCaptura "NOME".data sepDoisPontosBranco (fun _ => true) l with
      | some cap => { cab with nome := some (tiraEspacosStr ⟨cap⟩) }
      | none => cab
    else cab
  let cab :=
    if contem "MAE".data up then
      match buscaCaptura "MAE".data sepDoisPontosBranco (fun _ => true) l with
      | some cap => { cab with nome_mae := some (tiraEspacosStr ⟨cap⟩) }
      | none => cab
    else cab
  let cab :=
    if contem "NASCTO".data up || contem "NASCIMENTO".data up then
      match buscaData10 l with
      | some d => { cab with data_nascimento := some ⟨d⟩ }
      | none => cab
    else cab
  if contem "CPF".data up then
    match buscaCapturaCom (comecaCom "CPF".data) 3 sepDoisPontosBranco
        (fun c => ehDigito c || c = '.' || c = ' ' || c = '-') l with
    | some cap => { cab with cpf := some (tiraEspacosStr ⟨cap⟩) }
    | none => cab
  else cab

/-- The header loop of `parse_modelo_1`; the dict starts with all
fields set to the empty string. -/
def cabecalhoModelo1 (linhas_txt : List String) : Cabecalho :=
  linhas_txt.foldl cabecalhoModelo1Passo
    { nit := some "", nome := some "", nome_mae := some "",
      data_nascimento := some "", cpf := some "" }

/-- The `try` block of the `parse_modelo_1` table loop (lines
195-233); as in `modelo_2`, the handler drops the row, so the block is
an `Option`. -/
def tentaRegistroModelo1 (nit_cab : String) (partes : List String) : Option Registro := do
  let competencia ← partes.get? 0
  let fpas ← partes.get? 1
  let categoria ← partes.get? 2
  let remuneracao_txt ← if partes.length > 3 then partes.get? 3 else some "0"
  let valor_retido_txt ← if partes.length > 4 then partes.get? 4 else some "0"
  let (remun_num, remun_lit) := normalizar_moeda (some remuneracao_txt)
  let (retido_num, retido_lit) := normalizar_moeda (some valor_retido_txt)
  let (comp_date, comp_lit) := normalizar_competencia (some competencia)
  let competencia_ano ← anoCompetencia comp_date
  let competencia_mes ← mesCompetencia comp_date
  some
    { fonte := "GFIP"
      numero_documento := none
      nit := nit_cab
      competencia_literal := comp_lit
      competencia_date := comp_date
      competencia_ano := competencia_ano
      competencia_mes := competencia_mes
      documento_tomador := none
      documento_tomador_tipo := none
      fpas := some fpas
      categoria_codigo := some categoria
      codigo_gfip := none
      data_envio_literal := none
      data_envio_date := none
      tipo_remuneracao := none
      remuneracao_literal := remun_lit
      remuneracao := remun_num
      valor_retido_literal := retido_lit
      valor_retido := retido_num
      extemporaneo_literal := none
      extemporaneo := none }

/-- The table-header test of `parse_modelo_1` (lines 180-186). -/
def ehCabecalhoTabela1 (linha : String) : Bool :=
  let up := paraMaiusculas linha.data
  contem "COMPET".data up && contem "FPAS".data up && contem "CATEG".data up

/-- The table loop of `parse_modelo_1` with its `dentro_tabela` flag. -/
def tabelaModelo1Loop (nit_cab : String) : List String → Bool → List Registro
  | [], _ => []
  | linha :: resto, dentro =>
    if ehCabecalhoTabela1 linha then tabelaModelo1Loop nit_cab resto true
    else if !dentro then tabelaModelo1Loop nit_cab resto false
    else
      let partes := separaDuplosEspacos (tiraEspacos linha.data)
      if partes.length < 5 then tabelaModelo1Loop nit_cab resto dentro
      else
        match tentaRegistroModelo1 nit_cab partes with
        | some r => r :: tabelaModelo1Loop nit_cab resto dentro
        | none => tabelaModelo1Loop nit_cab resto dentro

/-- `parse_modelo_1` (`ci_gfip_universal.py` lines 126-240); the
function raises nothing, so its type is pure. -/
def parse_modelo_1 (texto : String) : ParseResultado :=
  let linhas_txt := separaLinhas texto
  let cabecalho := cabecalhoModelo1 linhas_txt
  let registros := tabelaModelo1Loop (cabecalho.nit.getD "") linhas_txt false
  { cabecalho := some cabecalho
    linhas := some registros
    total_linhas := some registros.length
    layout := some "modelo_1"
    erro := none }

/-! ### The universal entry point -/

/-- `parse_ci_gfip` (`ci_gfip_universal.py` lines 436-452): detect the
layout and dispatch; an unidentified layout returns the dict
`{"erro": "layout_nao_identificado"}` and nothing else. -/
def parse_ci_gfip (texto : String) : Py ParseResultado :=
  let layout := detectar_layout_ci_gfip texto
  if layout = "modelo_1" then .ok (parse_modelo_1 texto)
  else if layout = "modelo_2" then parse_ci_gfip_modelo_2 texto
  else
    .ok { cabecalho := none, linhas := none, total_linhas := none,
          layout := none, erro := some "layout_nao_identificado" }

/-! ### Reconciliation (`src/main.py`)

`comparar_competencias` and `gerar_hash_conteudo` read their row
dicts through `.get`, using only the keys modelled by `Linha` below
(prior rows come from the store, new rows from the parser; both carry
these keys).  Remuneration values are the exact rationals denoted by
the Python floats. -/

structure Linha where
  competencia_ano : Option Int
  competencia_mes : Option Int
  competencia_date : Option String
  competencia_literal : Option String
  documento_tomador : Option String
  categoria_codigo : Option String
  remuneracao : Option ℚ
  remuneracao_literal : Option String
  extemporaneo : Option Bool
deriving Repr, DecidableEq

/-- One entry of the `retificacoes` list built by
`comparar_competencias` (`main.py` lines 137-148). -/
structure Retificacao where
  competencia_ano : Option Int
  competencia_mes : Option Int
  competencia_date : Option String
  competencia_literal : Option String
  valor_antigo : ℚ
  valor_novo : ℚ
  valor_antigo_literal : Option String
  valor_novo_literal : Option String
deriving Repr, DecidableEq

/-- `chave_linha` (`main.py` lines 110-115). -/
def chave_linha (l : Linha) : Option Int × Option Int × Option String :=
  (l.competencia_ano, l.competencia_mes, l.documento_tomador)

/-- The dict comprehension `{chave_linha(l): l for l in linhas_antigas}`
followed by `.get(chave)`: the last row with the key wins. -/
def mapa_antigas (antigas : List Linha) (k : Option Int × Option Int × Option String) :
    Option Linha :=
  (antigas.filter (fun l => chave_linha l = k)).getLast?

/-- The rectification dict built at `main.py` lines 137-148. -/
def mkRetificacao (antiga l : Linha) (antigo_valor novo_valor : ℚ) : Retificacao :=
  { competencia_ano := l.competencia_ano
    competencia_mes := l.competencia_mes
    competencia_date := l.competencia_date
    competencia_literal := l.competencia_literal
    valor_antigo := antigo_valor
    valor_novo := novo_valor
    valor_antigo_literal := antiga.remuneracao_literal
    valor_novo_literal := l.remuneracao_literal }

/-- `comparar_competencias` (`main.py` lines 98-153): each new row is
appended to exactly one of `(complementos, retificacoes, iguais)`;
`float(x or 0)` maps an unset amount to zero. -/
def comparar_competencias (linhas_antigas linhas_novas : List Linha) :
    List Linha × List Retificacao × List Linha :=
  match linhas_novas with
  | [] => ([], [], [])
  | l :: resto =>
    let (c, r, i) := comparar_competencias linhas_antigas resto
    match mapa_antigas linhas_antigas (chave_linha l) with
    | none => (l :: c, r, i)
    | some antiga =>
      let antigo_valor := antiga.remuneracao.getD 0
      let novo_valor := l.remuneracao.getD 0
      if antigo_valor ≠ novo_valor then
        (c, mkRetificacao antiga l antigo_valor novo_valor :: r, i)
      else (c, r, l :: i)

/-! ### The content fingerprint (`gerar_hash_conteudo`)

The Python function serialises a canonical structure with
`json.dumps(..., sort_keys=True)` and returns its SHA-256 hex digest.
`gerar_hash_conteudo_txt` below produces exactly that serialised
string; the digest is SHA-256 of it, a fixed injection-modulo-
collisions, so equality of the strings gives equality of the digests
and inequality of the exhibited strings gives inequality of the
digests barring an unknown SHA-256 collision.  Sorting uses Python
`sorted` semantics: a stable sort on the key
`(ano, mes, documento_tomador)` whose element comparisons raise
`TypeError` when an unset component meets a set one, modelled by a
stable insertion sort in the `Py` monad with the same comparison. -/

structure LinhaNorm where
  ano : Option Int
  mes : Option Int
  documento_tomador : Option String
  categoria : Option String
  remuneracao : ℚ
  extemporaneo : Option Bool
deriving Repr, DecidableEq

/-- The per-row normalisation of `gerar_hash_conteudo` (lines 70-81). -/
def linha_norm (l : Linha) : LinhaNorm :=
  { ano := l.competencia_ano
    mes := l.competencia_mes
    documento_tomador := l.documento_tomador
    categoria := l.categoria_codigo
    remuneracao := l.remuneracao.getD 0
    extemporaneo := l.extemporaneo }

structure CabNorm where
  nome : String
  nit : String
  data_nascimento : Option String
  nome_mae : String
deriving Repr, DecidableEq

/-- The header normalisation of `gerar_hash_conteudo` (lines 63-68). -/
def cab_norm (c : Cabecalho) : CabNorm :=
  { nome := ⟨paraMaiusculas (tiraEspacos (c.nome.getD "").data)⟩
    nit := ⟨tiraEspacos (c.nit.getD "").data⟩
    data_nascimento := c.data_nascimento
    nome_mae := ⟨paraMaiusculas (tiraEspacos (c.nome_mae.getD "").data)⟩ }

/-- Python `<` on one optional key component: `None` compares equal to
`None` and raises `TypeError` against anything else. -/
def pyMenorOptInt : Option Int → Option Int → Py Bool
  | some a, some b => .ok (decide (a < b))
  | _, _ => .error "TypeError"

/-- Lexicographic `<` on Python strings (code-point order). -/
def menorTexto : List Char → List Char → Bool
  | [], [] => false
  | [], _ :: _ => true
  | _ :: _, [] => false
  | a :: xs, b :: ys => if a = b then menorTexto xs ys else decide (a < b)

def pyMenorOptStr : Option String → Option String → Py Bool
  | some a, some b => .ok (menorTexto a.data b.data)
  | _, _ => .error "TypeError"

/-- Python tuple `<` on the sort key: component-wise, moving on over
`==`-equal components (so `None == None` never reaches `<`). -/
def pyMenorChave (k1 k2 : Option Int × Option Int × Option String) : Py Bool :=
  if k1.1 = k2.1 then
    if k1.2.1 = k2.2.1 then
      if k1.2.2 = k2.2.2 then .ok false
      else pyMenorOptStr k1.2.2 k2.2.2
    else pyMenorOptInt k1.2.1 k2.2.1
  else pyMenorOptInt k1.1 k2.1

def chaveNorm (l : LinhaNorm) : Option Int × Option Int × Option String :=
  (l.ano, l.mes, l.documento_tomador)

/-- Stable insertion of a later element after all `not <` ones. -/
def insereOrdenado (x : LinhaNorm) : List LinhaNorm → Py (List LinhaNorm)
  | [] => .ok [x]
  | y :: ys =>
    match pyMenorChave (chaveNorm x) (chaveNorm y) with
    | .error e => .error e
    | .ok true => .ok (x :: y :: ys)
    | .ok false =>
      match insereOrdenado x ys with
      | .error e => .error e
      | .ok r => .ok (y :: r)

/-- Left-to-right insertion, keeping the accumulator sorted. -/
def ordenaLinhasAux : List LinhaNorm → List LinhaNorm → Py (List LinhaNorm)
  | [], acc => .ok acc
  | x :: xs, acc =>
    match insereOrdenado x acc with
    | .error e => .error e
    | .ok acc2 => ordenaLinhasAux xs acc2

/-- Python `sorted(linhas, key=...)`: stable; agrees with this
insertion sort on every input whose keys are totally comparable, and
raises `TypeError` like it when comparing unset against set
components. -/
def ordenaLinhas (l : List LinhaNorm) : Py (List LinhaNorm) :=
  ordenaLinhasAux l []

/-! JSON serialisation as `json.dumps(..., sort_keys=True)` produces
it: default separators, keys in sorted order, `ensure_ascii` escapes.
Floats are printed by `repr`; on the exact-rational value domain this
is the shortest decimal expansion, reproduced below for every value
whose denominator divides a power of ten (every value
`normalizar_moeda` can produce); other rationals receive an arbitrary
deterministic form, and no theorem depends on them. -/

def hexDig (n : Nat) : Char :=
  if n < 10 then digitoChar n
  else if n = 10 then 'a' else if n = 11 then 'b' else if n = 12 then 'c'
  else if n = 13 then 'd' else if n = 14 then 'e' else 'f'

def escapaU (n : Nat) : List Char :=
  ['\\', 'u', hexDig (n / 4096 % 16), hexDig (n / 256 % 16),
   hexDig (n / 16 % 16), hexDig (n % 16)]

/-- `json.dumps` escaping of one character (`ensure_ascii=True`). -/
def escapaChar (c : Char) : List Char :=
  if c = '"' then ['\\', '"']
  else if c = '\\' then ['\\', '\\']
  else if c = '\n' then ['\\', 'n']
  else if c = '\t' then ['\\', 't']
  else if c = '\r' then ['\\', 'r']
  else if c = '\x08' then ['\\', 'b']
  else if c = '\x0c' then ['\\', 'f']
  else if c.toNat < 32 then escapaU c.toNat
  else if c.toNat < 127 then [c]
  else if c.toNat < 65536 then escapaU c.toNat
  else
    escapaU (55296 + (c.toNat - 65536) / 1024) ++
    escapaU (56320 + (c.toNat - 65536) % 1024)

def jsonTexto (s : String) : String :=
  ⟨'"' :: (s.data.flatMap escapaChar ++ ['"'])⟩

def jsonOpcao (f : α → String) : Option α → String
  | none => "null"
  | some x => f x

def jsonInteiro (i : Int) : String := ⟨intParaDigitos i⟩

def jsonBooleano : Bool → String
  | true => "true"
  | false => "false"

/-- Shortest decimal expansion of a rational whose denominator divides
a power of ten, as Python `repr` prints the corresponding float. -/
def reprFloat (q : ℚ) : String :=
  match (List.range 40).find? (fun k => (10 : Nat) ^ k % q.den = 0) with
  | some 0 => ⟨intParaDigitos q.num ++ ['.', '0']⟩
  | some k =>
    let n := q.num.natAbs * ((10 : Nat) ^ k / q.den)
    let sinal : List Char := if q.num < 0 then ['-'] else []
    ⟨sinal ++ natParaDigitos (n / 10 ^ k) ++ '.' ::
      preencheZeros k (natParaDigitos (n % 10 ^ k))⟩
  | none => ⟨intParaDigitos q.num ++ '/' :: natParaDigitos q.den⟩

def jsonLinhaNorm (l : LinhaNorm) : String :=
  "\x7b\"ano\": " ++ jsonOpcao jsonInteiro l.ano ++
  ", \"categoria\": " ++ jsonOpcao jsonTexto l.categoria ++
  ", \"documento_tomador\": " ++ jsonOpcao jsonTexto l.documento_tomador ++
  ", \"extemporaneo\": " ++ jsonOpcao jsonBooleano l.extemporaneo ++
  ", \"mes\": " ++ jsonOpcao jsonInteiro l.mes ++
  ", \"remuneracao\": " ++ reprFloat l.remuneracao ++ "\x7d"

def jsonListaTexto : List String → String
  | [] => ""
  | [s] => s
  | s :: resto => s ++ ", " ++ jsonListaTexto resto

def jsonCabNorm (c : CabNorm) : String :=
  "\x7b\"data_nascimento\": " ++ jsonOpcao jsonTexto c.data_nascimento ++
  ", \"nit\": " ++ jsonTexto c.nit ++
  ", \"nome\": " ++ jsonTexto c.nome ++
  ", \"nome_mae\": " ++ jsonTexto c.nome_mae ++ "\x7d"

/-- The canonical serialised structure whose SHA-256 hex digest
`gerar_hash_conteudo` (`main.py` lines 57-95) returns. -/
def gerar_hash_conteudo_txt (cabecalho : Cabecalho) (linhas : List Linha) : Py String :=
  let linhas_norm := linhas.map linha_norm
  match ordenaLinhas linhas_norm with
  | .error e => .error e
  | .ok ordenadas =>
    .ok ("\x7b\"cabecalho\": " ++ jsonCabNorm (cab_norm cabecalho) ++
      ", \"linhas\": [" ++ jsonListaTexto (ordenadas.map jsonLinhaNorm) ++ "]\x7d")

/-! ### Digit-string lemmas -/

theorem valorDigito_digitoChar (d : Nat) (h : d ≤ 9) :
    valorDigito (digitoChar d) = d := by
  interval_cases d <;> rfl

theorem ehDigito_digitoChar (d : Nat) : ehDigito (digitoChar d) = true := by
  unfold digitoChar
  split <;> rfl

theorem digitoChar_valorDigito (c : Char) (h : ehDigito c = true) :
    digitoChar (valorDigito c) = c := by
  simp only [ehDigito, Bool.or_eq_true, decide_eq_true_eq] at h
  rcases h with ((((((((rfl | rfl) | rfl) | rfl) | rfl) | rfl) | rfl) | rfl) | rfl) | rfl <;> rfl

theorem valorDigito_le_nove (c : Char) (h : ehDigito c = true) :
    valorDigito c ≤ 9 := by
  simp only [ehDigito, Bool.or_eq_true, decide_eq_true_eq] at h
  rcases h with ((((((((rfl | rfl) | rfl) | rfl) | rfl) | rfl) | rfl) | rfl) | rfl) | rfl <;> decide

theorem ehDigito_nao_espaco (c : Char) (h : ehDigito c = true) :
    ehEspaco c = false := by
  simp only [ehDigito, Bool.or_eq_true, decide_eq_true_eq] at h
  rcases h with ((((((((rfl | rfl) | rfl) | rfl) | rfl) | rfl) | rfl) | rfl) | rfl) | rfl <;> rfl

theorem ehDigito_nao_sinal (c : Char) (h : ehDigito c = true) :
    c ≠ '+' ∧ c ≠ '-' ∧ c ≠ '_' := by
  simp only [ehDigito, Bool.or_eq_true, decide_eq_true_eq] at h
  rcases h with ((((((((rfl | rfl) | rfl) | rfl) | rfl) | rfl) | rfl) | rfl) | rfl) | rfl <;> refine ⟨by decide, by decide, by decide⟩

theorem natParaDigitosAux_ne_nil (fuel n : Nat) : natParaDigitosAux fuel n ≠ [] := by
  cases fuel with
  | zero => simp [natParaDigitosAux]
  | succ f =>
    rw [natParaDigitosAux]
    split <;> simp

theorem valorDigitosLE_natParaDigitosAux (fuel n : Nat) (h : n ≤ fuel) :
    valorDigitosLE (natParaDigitosAux fuel n) = n := by
  induction fuel generalizing n with
  | zero =>
    have h0 : n = 0 := by omega
    subst h0
    simp [natParaDigitosAux, valorDigitosLE, valorDigito_digitoChar 0 (by omega)]
  | succ f ih =>
    rw [natParaDigitosAux]
    split
    · rename_i h10
      simp [valorDigitosLE, valorDigito_digitoChar n (by omega)]
    · rename_i h10
      simp only [valorDigitosLE, ih (n / 10) (by omega),
        valorDigito_digitoChar (n % 10) (by omega)]
      omega

theorem digitos_natParaDigitosAux (fuel n : Nat) :
    ∀ c ∈ natParaDigitosAux fuel n, ehDigito c = true := by
  induction fuel generalizing n with
  | zero =>
    intro c hc
    simp [natParaDigitosAux] at hc
    subst hc
    exact ehDigito_digitoChar n
  | succ f ih =>
    rw [natParaDigitosAux]
    split
    · intro c hc
      simp at hc
      subst hc
      exact ehDigito_digitoChar n
    · intro c hc
      simp at hc
      rcases hc with rfl | hc
      · exact ehDigito_digitoChar (n % 10)
      · exact ih (n / 10) c hc

theorem valorDigitos_reverse (l : List Char) :
    valorDigitos l.reverse = valorDigitosLE l := by
  induction l with
  | nil => rfl
  | cons c t ih =>
    simp only [List.reverse_cons, valorDigitos, List.foldl_append, List.foldl_cons,
      List.foldl_nil, valorDigitosLE]
    simp only [valorDigitos] at ih
    omega

theorem valorDigitos_natParaDigitos (n : Nat) :
    valorDigitos (natParaDigitos n) = n := by
  rw [natParaDigitos, valorDigitos_reverse, valorDigitosLE_natParaDigitosAux n n le_rfl]

theorem digitos_natParaDigitos (n : Nat) :
    ∀ c ∈ natParaDigitos n, ehDigito c = true := by
  intro c hc
  rw [natParaDigitos, List.mem_reverse] at hc
  exact digitos_natParaDigitosAux n n c hc

theorem natParaDigitos_ne_nil (n : Nat) : natParaDigitos n ≠ [] := by
  rw [natParaDigitos]
  simp [natParaDigitosAux_ne_nil n n]

theorem tiraEspacos_digitos (l : List Char) (h : ∀ c ∈ l, ehDigito c = true) :
    tiraEspacos l = l := by
  have aux : ∀ m : List Char, (∀ c ∈ m, ehDigito c = true) → m.dropWhile ehEspaco = m := by
    intro m hm
    cases m with
    | nil => rfl
    | cons c t =>
      rw [List.dropWhile_cons_of_neg]
      simp [ehDigito_nao_espaco c (hm c (by simp))]
  rw [tiraEspacos, aux l h, aux l.reverse (by intro c hc; exact h c (List.mem_reverse.mp hc)),
    List.reverse_reverse]

theorem valorDigitos_zero_cons (l : List Char) :
    valorDigitos ('0' :: l) = valorDigitos l := rfl

theorem pyIntParse_digitos (l : List Char) (hne : l ≠ [])
    (hd : ∀ c ∈ l, ehDigito c = true) :
    pyIntParse ⟨l⟩ = some (Int.ofNat (valorDigitos l)) := by
  have hdata : (⟨l⟩ : String).data = l := rfl
  have hstrip : tiraEspacos l = l := tiraEspacos_digitos l hd
  obtain ⟨c, t, rfl⟩ : ∃ c t, l = c :: t := by
    cases l with
    | nil => exact absurd rfl hne
    | cons c t => exact ⟨c, t, rfl⟩
  have hc := hd c (by simp)
  obtain ⟨hp, hm, hu⟩ := ehDigito_nao_sinal c hc
  rw [pyIntParse]
  simp only [hdata, hstrip, List.head?_cons]
  rw [if_neg (by simp [hp]), if_neg (by simp [hm])]
  have hvalid : digitosValidos (c :: t) = true := by
    rw [digitosValidos]
    simp only [Bool.and_eq_true]
    refine ⟨⟨⟨⟨by simp, ?_⟩, ?_⟩, ?_⟩, ?_⟩
    · rw [List.all_eq_true]
      intro x hx
      simp [hd x hx]
    · simp [hc]
    · have : (c :: t).getLast (by simp) ∈ c :: t := List.getLast_mem _
      rw [List.getLast?_eq_getLast _ (by simp)]
      simp [hd _ this]
    · rw [List.all_eq_true]
      intro p hp2
      have h1 := List.of_mem_zip hp2
      have := (ehDigito_nao_sinal p.1 (hd _ h1.1)).2.2
      simp [this]
  rw [if_pos hvalid]
  have hfiltro : (c :: t).filter (fun x => decide (x ≠ '_')) = c :: t := by
    rw [List.filter_eq_self]
    intro x hx
    simp [(ehDigito_nao_sinal x (hd x hx)).2.2]
  rw [hfiltro]

theorem pyIntParse_natParaDigitos (n : Nat) :
    pyIntParse ⟨natParaDigitos n⟩ = some (Int.ofNat n) := by
  rw [pyIntParse_digitos _ (natParaDigitos_ne_nil n) (digitos_natParaDigitos n),
    valorDigitos_natParaDigitos]

theorem digitos_pad2 (m : Nat) : ∀ c ∈ pad2 m, ehDigito c = true := by
  intro c hc
  rw [pad2] at hc
  split at hc
  · rcases List.mem_cons.mp hc with rfl | hc
    · rfl
    · exact digitos_natParaDigitos m c hc
  · exact digitos_natParaDigitos m c hc

theorem pad2_ne_nil (m : Nat) : pad2 m ≠ [] := by
  rw [pad2]
  split
  · simp
  · exact natParaDigitos_ne_nil m

theorem pyIntParse_pad2 (m : Nat) : pyIntParse ⟨pad2 m⟩ = some (Int.ofNat m) := by
  rw [pyIntParse_digitos _ (pad2_ne_nil m) (digitos_pad2 m)]
  rw [pad2]
  split
  · rw [valorDigitos_zero_cons, valorDigitos_natParaDigitos]
  · rw [valorDigitos_natParaDigitos]

/-! ### Shape of a normalised competency and row-assembly success -/

theorem separaChar_ne_nil (sep : Char) (l : List Char) : separaChar sep l ≠ [] := by
  cases l with
  | nil => simp [separaChar]
  | cons c t =>
    rw [separaChar]
    rcases h : separaChar sep t with _ | ⟨p, ps⟩
    · simp [h]
    · simp only [h]
      split <;> simp

theorem separaChar_append (sep : Char) (a b : List Char) (h : sep ∉ a) :
    separaChar sep (a ++ sep :: b) = a :: separaChar sep b := by
  induction a with
  | nil =>
    simp only [List.nil_append]
    rw [separaChar]
    rcases hb : separaChar sep b with _ | ⟨p, ps⟩
    · exact absurd hb (separaChar_ne_nil sep b)
    · simp [hb]
  | cons x a' ih =>
    have hx : x ≠ sep := fun hxx => h (by simp [hxx])
    have h' : sep ∉ a' := fun hh => h (by simp [hh])
    simp only [List.cons_append]
    rw [separaChar, ih h']
    simp [hx]

theorem traco_nao_em_digitos (l : List Char) (h : ∀ c ∈ l, ehDigito c = true) :
    '-' ∉ l := by
  intro hm
  exact absurd (h '-' hm) (by decide)

theorem separaChar_isoPrimeiroDia (m y : Nat) :
    separaChar '-' (isoPrimeiroDia m y).data =
      [natParaDigitos y, pad2 m, ['0', '1']] := by
  have h1 : (isoPrimeiroDia m y).data =
      natParaDigitos y ++ '-' :: (pad2 m ++ '-' :: ['0', '1']) := rfl
  rw [h1, separaChar_append '-' _ _ (traco_nao_em_digitos _ (digitos_natParaDigitos y)),
    separaChar_append '-' _ _ (traco_nao_em_digitos _ (digitos_pad2 m))]
  rfl

theorem anoCompetencia_iso (m y : Nat) :
    anoCompetencia (some (isoPrimeiroDia m y)) = some (some (Int.ofNat y)) := by
  rw [anoCompetencia, separaChar_isoPrimeiroDia]
  simp [Option.bind, pyIntParse_natParaDigitos y]

theorem mesCompetencia_iso (m y : Nat) :
    mesCompetencia (some (isoPrimeiroDia m y)) = some (some (Int.ofNat m)) := by
  rw [mesCompetencia, separaChar_isoPrimeiroDia]
  simp [Option.bind, pyIntParse_pad2 m]

theorem normalizar_competencia_forma (s : Option String) :
    (normalizar_competencia s).1 = none ∨
    ∃ m y, (normalizar_competencia s).1 = some (isoPrimeiroDia m y) := by
  rcases s with _ | s
  · exact Or.inl rfl
  · by_cases hs : s = ""
    · subst hs
      exact Or.inl rfl
    · rcases h1 : strptimeMesAno '/' (tiraEspacos s.data) with _ | ⟨m, y⟩
      · rcases h2 : strptimeMesAno '-' (tiraEspacos s.data) with _ | ⟨m, y⟩
        · exact Or.inl (by simp [normalizar_competencia, hs, h1, h2])
        · exact Or.inr ⟨m, y, by simp [normalizar_competencia, hs, h1, h2]⟩
      · exact Or.inr ⟨m, y, by simp [normalizar_competencia, hs, h1]⟩

theorem anoCompetencia_ok (cd : Option String)
    (h : cd = none ∨ ∃ m y, cd = some (isoPrimeiroDia m y)) :
    ∃ a, anoCompetencia cd = some a ∧ ∃ b, mesCompetencia cd = some b := by
  rcases h with rfl | ⟨m, y, rfl⟩
  · exact ⟨none, rfl, none, rfl⟩
  · exact ⟨some (Int.ofNat y), anoCompetencia_iso m y,
      some (Int.ofNat m), mesCompetencia_iso m y⟩

/-- The shared assembly block of `_linhas_modelo_2` always succeeds,
and the fields the claims inspect are exactly the selected tokens
after normalisation. -/
theorem montarRegistro2_ok (fonte nd nr comp dr fp cat : String) (cg : Option String)
    (del tr rt vrt et : String) :
    ∃ r, montarRegistro2 fonte nd nr comp dr fp cat cg del tr rt vrt et = some r ∧
      r.fonte = fonte ∧ r.codigo_gfip = cg ∧ r.categoria_codigo = some cat ∧
      r.valor_retido = (normalizar_moeda (some vrt)).1 ∧
      r.valor_retido_literal = (normalizar_moeda (some vrt)).2 ∧
      r.remuneracao = (normalizar_moeda (some rt)).1 ∧
      r.numero_documento = some nd ∧
      r.competencia_date = (normalizar_competencia (some comp)).1 ∧
      r.competencia_literal = (normalizar_competencia (some comp)).2 ∧
      (r.competencia_date = none → r.competencia_ano = none) := by
  obtain ⟨a, ha, b, hb⟩ := anoCompetencia_ok (normalizar_competencia (some comp)).1
    (normalizar_competencia_forma (some comp))
  rw [montarRegistro2]
  rcases hc : normalizar_competencia (some comp) with ⟨cd, cl⟩
  rcases he : normalizar_data (some del) with ⟨ed, el⟩
  rcases hr : normalizar_moeda (some rt) with ⟨rv, rl⟩
  rcases hv : normalizar_moeda (some vrt) with ⟨vv, vl⟩
  rcases hd : normalizar_documento_tomador (some dr) with ⟨dv, dt⟩
  rw [hc] at ha hb
  simp only [ha, hb, Option.bind, hr, hv]
  refine ⟨_, rfl, rfl, rfl, rfl, rfl, rfl, rfl, rfl, rfl, rfl, ?_⟩
  intro hcd
  show a = none
  simp only at hcd
  rw [hcd] at ha
  simp [anoCompetencia] at ha
  exact ha.symm

/-! ### Per-line behaviour of `_linhas_modelo_2` -/

theorem get?_de_comprimento (partes : List String) (i : Nat) (h : i < partes.length) :
    ∃ t, partes.get? i = some t :=
  ⟨partes.get ⟨i, h⟩, List.get?_eq_get h⟩

/-- A `GFIP`-tagged row with at least 13 tokens is always assembled
into a record; the filing-submission code is the eighth token. -/
theorem tentaRegistro2_gfip (partes : List String) (h : partes.length ≥ 13) :
    ∃ r, tentaRegistroModelo2 "GFIP" partes = some r ∧ r.fonte = "GFIP" ∧
      r.codigo_gfip = partes.get? 7 := by
  obtain ⟨g1, h1⟩ := get?_de_comprimento partes 1 (by omega)
  obtain ⟨g2, h2⟩ := get?_de_comprimento partes 2 (by omega)
  obtain ⟨g3, h3⟩ := get?_de_comprimento partes 3 (by omega)
  obtain ⟨g4, h4⟩ := get?_de_comprimento partes 4 (by omega)
  obtain ⟨g5, h5⟩ := get?_de_comprimento partes 5 (by omega)
  obtain ⟨g6, h6⟩ := get?_de_comprimento partes 6 (by omega)
  obtain ⟨g7, h7⟩ := get?_de_comprimento partes 7 (by omega)
  obtain ⟨g8, h8⟩ := get?_de_comprimento partes 8 (by omega)
  obtain ⟨g9, h9⟩ := get?_de_comprimento partes 9 (by omega)
  obtain ⟨g10, h10⟩ := get?_de_comprimento partes 10 (by omega)
  obtain ⟨g11, h11⟩ := get?_de_comprimento partes 11 (by omega)
  obtain ⟨g12, h12⟩ := get?_de_comprimento partes 12 (by omega)
  obtain ⟨r, hr, hfonte, hcg, _⟩ :=
    montarRegistro2_ok "GFIP" g1 g2 g3 g4 g5 g6 (some g7) g8 g9 g10 g11 g12
  rw [tentaRegistroModelo2]
  rw [if_pos (by simp; omega)]
  have hgt : partes.length > 12 := by omega
  simp only [h1, h2, h3, h4, h5, h6, h7, h8, h9, h10, h11, h12, Option.bind, if_pos hgt]
  exact ⟨r, hr, hfonte, hcg⟩

/-- An `ESOCIAL`-tagged row with at least 12 tokens is always
assembled; the submission code is unset while the category and the
withheld amount come from the seventh and eleventh tokens. -/
theorem tentaRegistro2_esocial (partes : List String) (h : partes.length ≥ 12)
    (t6 t10 : String) (h6 : partes.get? 6 = some t6) (h10 : partes.get? 10 = some t10) :
    ∃ r, tentaRegistroModelo2 "ESOCIAL" partes = some r ∧ r.fonte = "ESOCIAL" ∧
      r.codigo_gfip = none ∧ r.categoria_codigo = some t6 ∧
      r.valor_retido = (normalizar_moeda (some t10)).1 ∧
      r.valor_retido_literal = (normalizar_moeda (some t10)).2 := by
  obtain ⟨g1, h1⟩ := get?_de_comprimento partes 1 (by omega)
  obtain ⟨g2, h2⟩ := get?_de_comprimento partes 2 (by omega)
  obtain ⟨g3, h3⟩ := get?_de_comprimento partes 3 (by omega)
  obtain ⟨g4, h4⟩ := get?_de_comprimento partes 4 (by omega)
  obtain ⟨g5, h5⟩ := get?_de_comprimento partes 5 (by omega)
  obtain ⟨g7, h7⟩ := get?_de_comprimento partes 7 (by omega)
  obtain ⟨g8, h8⟩ := get?_de_comprimento partes 8 (by omega)
  obtain ⟨g9, h9⟩ := get?_de_comprimento partes 9 (by omega)
  obtain ⟨g11, h11⟩ := get?_de_comprimento partes 11 (by omega)
  obtain ⟨r, hr, hfonte, hcg, hcat, hvr, hvrl, _⟩ :=
    montarRegistro2_ok "ESOCIAL" g1 g2 g3 g4 g5 t6 none g7 g8 g9 t10 g11
  rw [tentaRegistroModelo2]
  rw [if_neg (by simp)]
  rw [if_pos (by simp; omega)]
  simp only [h1, h2, h3, h4, h5, h6, h7, h8, h9, h10, h11, Option.bind]
  exact ⟨r, hr, hfonte, hcg, hcat, hvr, hvrl⟩

theorem linha_para_registro_reduz (linha : String) (p0 : String) (resto : List String)
    (hfoot : comecaCom "Página ".data linha.data = false)
    (hpr : separaEspacosStr linha = p0 :: resto) :
    linha_para_registro linha =
      (if paraMaiusculasStr p0 ≠ "GFIP" && paraMaiusculasStr p0 ≠ "ESOCIAL" then .ok none
       else .ok (tentaRegistroModelo2 (paraMaiusculasStr p0) (p0 :: resto))) := by
  rw [linha_para_registro]
  simp only [hfoot, Bool.false_eq_true, if_false, hpr, List.isEmpty_cons, pyGet,
    List.get?]

theorem linha_gfip_emite (linha : String) (p0 : String) (resto : List String)
    (hfoot : comecaCom "Página ".data linha.data = false)
    (hpr : separaEspacosStr linha = p0 :: resto)
    (hfonte : paraMaiusculasStr p0 = "GFIP")
    (hlen : (p0 :: resto).length ≥ 13) :
    ∃ r, linha_para_registro linha = .ok (some r) := by
  obtain ⟨r, hr, _⟩ := tentaRegistro2_gfip (p0 :: resto) hlen
  rw [linha_para_registro_reduz linha p0 resto hfoot hpr, hfonte]
  rw [if_neg (by simp)]
  exact ⟨r, by rw [hr]⟩

theorem linha_gfip_curta (linha : String) (p0 : String) (resto : List String)
    (hfoot : comecaCom "Página ".data linha.data = false)
    (hpr : separaEspacosStr linha = p0 :: resto)
    (hfonte : paraMaiusculasStr p0 = "GFIP")
    (hlen : (p0 :: resto).length < 13) :
    linha_para_registro linha = .ok none := by
  rw [linha_para_registro_reduz linha p0 resto hfoot hpr, hfonte]
  rw [if_neg (by simp)]
  rw [tentaRegistroModelo2]
  rw [if_neg (by simp at hlen ⊢; omega)]
  rw [if_neg (by simp)]

theorem linha_esocial_emite (linha : String) (p0 : String) (resto : List String)
    (hfoot : comecaCom "Página ".data linha.data = false)
    (hpr : separaEspacosStr linha = p0 :: resto)
    (hfonte : paraMaiusculasStr p0 = "ESOCIAL")
    (hlen : (p0 :: resto).length ≥ 12)
    (t6 t10 : String) (h6 : (p0 :: resto).get? 6 = some t6)
    (h10 : (p0 :: resto).get? 10 = some t10) :
    ∃ r, linha_para_registro linha = .ok (some r) ∧ r.fonte = "ESOCIAL" ∧
      r.codigo_gfip = none ∧ r.categoria_codigo = some t6 ∧
      r.valor_retido = (normalizar_moeda (some t10)).1 ∧
      r.valor_retido_literal = (normalizar_moeda (some t10)).2 := by
  obtain ⟨r, hr, hprops⟩ := tentaRegistro2_esocial (p0 :: resto) hlen t6 t10 h6 h10
  rw [linha_para_registro_reduz linha p0 resto hfoot hpr, hfonte]
  rw [if_neg (by simp)]
  exact ⟨r, by rw [hr], hprops⟩

theorem linha_esocial_curta (linha : String) (p0 : String) (resto : List String)
    (hfoot : comecaCom "Página ".data linha.data = false)
    (hpr : separaEspacosStr linha = p0 :: resto)
    (hfonte : paraMaiusculasStr p0 = "ESOCIAL")
    (hlen : (p0 :: resto).length < 12) :
    linha_para_registro linha = .ok none := by
  rw [linha_para_registro_reduz linha p0 resto hfoot hpr, hfonte]
  rw [if_neg (by simp)]
  rw [tentaRegistroModelo2]
  rw [if_neg (by simp)]
  rw [if_neg (by simp at hlen ⊢; omega)]

theorem linha_sem_fonte (linha : String) (p0 : String) (resto : List String)
    (hfoot : comecaCom "Página ".data linha.data = false)
    (hpr : separaEspacosStr linha = p0 :: resto)
    (hg : paraMaiusculasStr p0 ≠ "GFIP") (he : paraMaiusculasStr p0 ≠ "ESOCIAL") :
    linha_para_registro linha = .ok none := by
  rw [linha_para_registro_reduz linha p0 resto hfoot hpr]
  rw [if_pos (by simp [hg, he])]

theorem linha_vazia (linha : String)
    (hfoot : comecaCom "Página ".data linha.data = false)
    (hpr : separaEspacosStr linha = []) :
    linha_para_registro linha = .ok none := by
  rw [linha_para_registro]
  simp [hfoot, hpr]

theorem linha_pagina (linha : String)
    (hfoot : comecaCom "Página ".data linha.data = true) :
    linha_para_registro linha = .ok none := by
  rw [linha_para_registro]
  simp [hfoot]

/-- No line of the `modelo_2` table loop can raise: the one
raise-capable subscript sits behind the emptiness guard. -/
theorem linha_para_registro_ok (linha : String) :
    ∃ o, linha_para_registro linha = .ok o := by
  by_cases hfoot : comecaCom "Página ".data linha.data = true
  · exact ⟨none, linha_pagina linha hfoot⟩
  · have hfoot' : comecaCom "Página ".data linha.data = false :=
      Bool.eq_false_iff.mpr hfoot
    rcases hpr : separaEspacosStr linha with _ | ⟨p0, resto⟩
    · exact ⟨none, linha_vazia linha hfoot' hpr⟩
    · rw [linha_para_registro_reduz linha p0 resto hfoot' hpr]
      split
      · exact ⟨none, rfl⟩
      · exact ⟨tentaRegistroModelo2 (paraMaiusculasStr p0) (p0 :: resto), rfl⟩

theorem linhasModelo2Loop_ok (ls : List String) (b : Bool) :
    ∃ rs, linhasModelo2Loop ls b = .ok rs := by
  induction ls generalizing b with
  | nil => exact ⟨[], rfl⟩
  | cons raw resto ih =>
    rw [linhasModelo2Loop]
    split
    · exact ih b
    · split
      · exact ih true
      · split
        · exact ih false
        · obtain ⟨o, ho⟩ := linha_para_registro_ok (tiraEspacosStr raw)
          rw [ho]
          rcases o with _ | r
          · exact ih b
          · obtain ⟨rs, hrs⟩ := ih b
            rw [hrs]
            exact ⟨r :: rs, rfl⟩

theorem parse_modelo_2_ok (texto : String) :
    ∃ r, parse_ci_gfip_modelo_2 texto = .ok r := by
  obtain ⟨rs, hrs⟩ := linhasModelo2Loop_ok (separaLinhas texto) false
  rw [parse_ci_gfip_modelo_2, linhas_modelo_2, hrs]
  exact ⟨_, rfl⟩

/-! ### Characterisation of `comparar_competencias` -/

/-- `comparar_competencias` as three comprehensions over the new rows:
a new row is a complement exactly when its key misses the prior map, a
rectification exactly when the key hits a prior row with a different
(zero-defaulted) amount, and unchanged exactly when the amounts agree. -/
theorem comparar_eq (a n : List Linha) :
    comparar_competencias a n =
      (n.filter (fun l => (mapa_antigas a (chave_linha l)).isNone),
       n.filterMap (fun l =>
         match mapa_antigas a (chave_linha l) with
         | some antiga =>
           if antiga.remuneracao.getD 0 ≠ l.remuneracao.getD 0 then
             some (mkRetificacao antiga l (antiga.remuneracao.getD 0) (l.remuneracao.getD 0))
           else none
         | none => none),
       n.filter (fun l =>
         match mapa_antigas a (chave_linha l) with
         | some antiga => decide (antiga.remuneracao.getD 0 = l.remuneracao.getD 0)
         | none => false)) := by
  induction n with
  | nil => rfl
  | cons l resto ih =>
    rw [comparar_competencias, ih]
    rcases hm : mapa_antigas a (chave_linha l) with _ | antiga
    · simp [List.filter_cons, List.filterMap_cons, hm]
    · by_cases hv : antiga.remuneracao.getD 0 = l.remuneracao.getD 0
      · simp [List.filter_cons, List.filterMap_cons, hm, hv]
      · simp [List.filter_cons, List.filterMap_cons, hm, hv]

theorem comparar_contagem (a n : List Linha) :
    (comparar_competencias a n).1.length + (comparar_competencias a n).2.1.length +
      (comparar_competencias a n).2.2.length = n.length := by
  induction n with
  | nil => rfl
  | cons l resto ih =>
    rw [comparar_competencias]
    rcases hcr : comparar_competencias a resto with ⟨c, r, i⟩
    rw [hcr] at ih
    simp only at ih
    simp only [hcr]
    rcases hm : mapa_antigas a (chave_linha l) with _ | antiga
    · simp only [hm, List.length_cons]
      omega
    · simp only [hm]
      split <;> simp only [List.length_cons] <;> omega

/-- A hit in the prior map always has exactly the looked-up key. -/
theorem mapa_antigas_chave (a : List Linha) (k : Option Int × Option Int × Option String)
    (ant : Linha) (h : mapa_antigas a k = some ant) : chave_linha ant = k := by
  rw [mapa_antigas] at h
  have hmem0 : ant ∈ (a.filter (fun l => decide (chave_linha l = k))).getLast? := by
    rw [Option.mem_def]
    exact h
  obtain ⟨hne, heq⟩ := List.mem_getLast?_eq_getLast hmem0
  have hmem : ant ∈ a.filter (fun l => decide (chave_linha l = k)) := by
    rw [heq]
    exact List.getLast_mem hne
  exact of_decide_eq_true (List.mem_filter.mp hmem).2

theorem natParaDigitos_um_digito (m : Nat) (h : m ≤ 9) :
    natParaDigitos m = [digitoChar m] := by
  interval_cases m <;> rfl

/-! ### Declarative shape of the accepted competency literals -/

/-- The four zero-padded decimal digits of a year below 10000. -/
def anoTexto4 (y : Nat) : List Char :=
  [digitoChar (y / 1000), digitoChar (y / 100 % 10),
   digitoChar (y / 10 % 10), digitoChar (y % 10)]

/-- The input shapes `datetime.strptime` accepts for `%m<sep>%Y`,
described from the month and year values: a two-digit or a one-digit
month, the separator, and exactly four digits of a year at least 1. -/
def FormaCompetencia (sep : Char) (t : List Char) (m y : Nat) : Prop :=
  1 ≤ m ∧ m ≤ 12 ∧ 1 ≤ y ∧ y ≤ 9999 ∧
  (t = pad2 m ++ sep :: anoTexto4 y ∨ (m ≤ 9 ∧ t = digitoChar m :: sep :: anoTexto4 y))

theorem anoQuatro_anoTexto4 (sep : Char) (y : Nat) (hy : y ≤ 9999) :
    anoQuatro sep (sep :: anoTexto4 y) = some y := by
  have h1 : y / 1000 ≤ 9 := by omega
  have h2 : y / 100 % 10 ≤ 9 := by omega
  have h3 : y / 10 % 10 ≤ 9 := by omega
  have h4 : y % 10 ≤ 9 := by omega
  rw [anoTexto4, anoQuatro]
  rw [if_pos (by simp [ehDigito_digitoChar])]
  rw [valorDigito_digitoChar _ h1, valorDigito_digitoChar _ h2,
    valorDigito_digitoChar _ h3, valorDigito_digitoChar _ h4]
  congr 1
  omega

theorem anoQuatro_sound (sep : Char) (l : List Char) (y : Nat)
    (h : anoQuatro sep l = some y) :
    l = sep :: anoTexto4 y ∧ y ≤ 9999 := by
  match l, h with
  | [c, d1, d2, d3, d4], h =>
    rw [anoQuatro] at h
    split at h
    · rename_i hcond
      simp only [Bool.and_eq_true, decide_eq_true_eq] at hcond
      obtain ⟨hc, ⟨⟨hd1, hd2⟩, hd3⟩, hd4⟩ := hcond
      injection h with hy
      have v1 := valorDigito_le_nove d1 hd1
      have v2 := valorDigito_le_nove d2 hd2
      have v3 := valorDigito_le_nove d3 hd3
      have v4 := valorDigito_le_nove d4 hd4
      subst hc
      subst hy
      constructor
      · rw [anoTexto4]
        congr 2
        · rw [show (1000 * valorDigito d1 + 100 * valorDigito d2 +
            10 * valorDigito d3 + valorDigito d4) / 1000 = valorDigito d1 by omega]
          exact (digitoChar_valorDigito d1 hd1).symm
        · congr 1
          · rw [show (1000 * valorDigito d1 + 100 * valorDigito d2 +
              10 * valorDigito d3 + valorDigito d4) / 100 % 10 = valorDigito d2 by omega]
            exact (digitoChar_valorDigito d2 hd2).symm
          · congr 1
            · rw [show (1000 * valorDigito d1 + 100 * valorDigito d2 +
                10 * valorDigito d3 + valorDigito d4) / 10 % 10 = valorDigito d3 by omega]
              exact (digitoChar_valorDigito d3 hd3).symm
            · congr 1
              rw [show (1000 * valorDigito d1 + 100 * valorDigito d2 +
                10 * valorDigito d3 + valorDigito d4) % 10 = valorDigito d4 by omega]
              exact (digitoChar_valorDigito d4 hd4).symm
      · omega
    · exact absurd h (by simp)

theorem pad2_dez : pad2 10 = ['1', '0'] := by decide

theorem pad2_onze : pad2 11 = ['1', '1'] := by decide

theorem pad2_doze : pad2 12 = ['1', '2'] := by decide

theorem mes2_sound (a b : Char) (m : Nat) (h : mesDoisDigitos a b = some m) :
    1 ≤ m ∧ m ≤ 12 ∧ [a, b] = pad2 m := by
  rw [mesDoisDigitos] at h
  split at h
  · rename_i hcond
    simp only [Bool.and_eq_true, Bool.or_eq_true, decide_eq_true_eq] at hcond
    obtain ⟨ha, hb⟩ := hcond
    injection h with hm
    subst ha
    subst hm
    rcases hb with (rfl | rfl) | rfl <;>
      exact ⟨by decide, by decide, by decide⟩
  · split at h
    · rename_i hcond
      simp only [Bool.and_eq_true, decide_eq_true_eq, bne_iff_ne, ne_eq] at hcond
      obtain ⟨ha, hb, hb0⟩ := hcond
      injection h with hm
      subst ha
      subst hm
      have h9 := valorDigito_le_nove b hb
      have h1 : 1 ≤ valorDigito b := by
        rcases (show b = '0' ∨ 1 ≤ valorDigito b by
          simp only [ehDigito, Bool.or_eq_true, decide_eq_true_eq] at hb
          rcases hb with ((((((((rfl | rfl) | rfl) | rfl) | rfl) | rfl) | rfl) | rfl) | rfl) | rfl
          · exact Or.inl rfl
          all_goals exact Or.inr (by decide)) with hc | hc
        · exact absurd hc hb0
        · exact hc
      refine ⟨h1, by omega, ?_⟩
      rw [pad2, if_pos (by omega)]
      rw [natParaDigitos_um_digito (valorDigito b) h9, digitoChar_valorDigito b hb]
    · exact absurd h (by simp)

theorem mes1_sound (a : Char) (m : Nat) (h : mesUmDigito a = some m) :
    1 ≤ m ∧ m ≤ 9 ∧ a = digitoChar m := by
  rw [mesUmDigito] at h
  split at h
  · rename_i hcond
    simp only [Bool.and_eq_true, decide_eq_true_eq, bne_iff_ne, ne_eq] at hcond
    obtain ⟨ha, ha0⟩ := hcond
    injection h with hm
    subst hm
    have h9 := valorDigito_le_nove a ha
    have h1 : 1 ≤ valorDigito a := by
      simp only [ehDigito, Bool.or_eq_true, decide_eq_true_eq] at ha
      rcases ha with ((((((((rfl | rfl) | rfl) | rfl) | rfl) | rfl) | rfl) | rfl) | rfl) | rfl
      · exact absurd rfl ha0
      all_goals decide
    exact ⟨h1, h9, (digitoChar_valorDigito a ha).symm⟩
  · exact absurd h (by simp)

theorem digitoChar_um_a_nove (m : Nat) (h1 : 1 ≤ m) (h9 : m ≤ 9) :
    ehDigito (digitoChar m) = true ∧ digitoChar m ≠ '0' ∧ valorDigito (digitoChar m) = m := by
  interval_cases m <;> refine ⟨rfl, by decide, rfl⟩

theorem mes2_completo (m : Nat) (h1 : 1 ≤ m) (h12 : m ≤ 12) (a b : Char)
    (hab : pad2 m = [a, b]) : mesDoisDigitos a b = some m := by
  by_cases h9 : m ≤ 9
  · rw [pad2, if_pos (by omega)] at hab
    rw [natParaDigitos_um_digito m h9] at hab
    injection hab with ha hab
    injection hab with hb _
    obtain ⟨hd, h0, hv⟩ := digitoChar_um_a_nove m h1 h9
    rw [mesDoisDigitos, if_neg, if_pos]
    · rw [← hb, hv]
    · simp only [Bool.and_eq_true, decide_eq_true_eq, bne_iff_ne, ne_eq]
      exact ⟨ha.symm, ⟨by rw [← hb]; exact hd, by rw [← hb]; exact h0⟩⟩
    · subst ha
      simp
  · interval_cases m
    · rw [pad2_dez] at hab
      injection hab with ha hab
      injection hab with hb _
      subst ha; subst hb
      decide
    · rw [pad2_onze] at hab
      injection hab with ha hab
      injection hab with hb _
      subst ha; subst hb
      decide
    · rw [pad2_doze] at hab
      injection hab with ha hab
      injection hab with hb _
      subst ha; subst hb
      decide

theorem pad2_dois (m : Nat) (h1 : 1 ≤ m) (h12 : m ≤ 12) :
    ∃ a b, pad2 m = [a, b] := by
  by_cases h9 : m ≤ 9
  · exact ⟨'0', digitoChar m, by
      rw [pad2, if_pos (by omega), natParaDigitos_um_digito m h9]⟩
  · interval_cases m
    · exact ⟨'1', '0', pad2_dez⟩
    · exact ⟨'1', '1', pad2_onze⟩
    · exact ⟨'1', '2', pad2_doze⟩

theorem anoQuatro_quatro (sep : Char) (y : Nat) :
    anoQuatro sep (anoTexto4 y) = none := by
  rw [anoTexto4]
  rfl

/-- Equivalence between the embedded CPython `strptime` matcher and
the value-level description of the accepted inputs. -/
theorem strptime_iff (sep : Char) (t : List Char) (m y : Nat) :
    strptimeMesAno sep t = some (m, y) ↔ FormaCompetencia sep t m y := by
  constructor
  · intro h
    rw [strptimeMesAno] at h
    rcases hc : casaMesAno sep t with _ | ⟨m', y'⟩
    · rw [hc] at h
      exact absurd h (by simp)
    · rw [hc] at h
      change (if 1 ≤ y' then some (m', y') else none) = some (m, y) at h
      by_cases hy1 : 1 ≤ y'
      · rw [if_pos hy1] at h
        injection h with hpair
        rw [Prod.mk.injEq] at hpair
        obtain ⟨rfl, rfl⟩ := hpair
        cases t with
        | nil => simp [casaMesAno] at hc
        | cons a t1 =>
          cases t1 with
          | nil => simp [casaMesAno] at hc
          | cons b resto =>
            rw [casaMesAno] at hc
            rcases h2 : mesDoisDigitos a b with _ | m2 <;>
              rcases h4 : anoQuatro sep resto with _ | y4 <;>
              simp only [h2, h4] at hc
            all_goals try {
              rcases h1 : mesUmDigito a with _ | m1 <;>
                rcases h5 : anoQuatro sep (b :: resto) with _ | y5 <;>
                simp only [h1, h5] at hc <;>
                try exact Option.noConfusion hc
              injection hc with hpair2
              rw [Prod.mk.injEq] at hpair2
              obtain ⟨rfl, rfl⟩ := hpair2
              obtain ⟨hm1, hm9, ha⟩ := mes1_sound a _ h1
              obtain ⟨hba, hy9⟩ := anoQuatro_sound sep _ _ h5
              exact ⟨hm1, by omega, hy1, hy9, Or.inr ⟨hm9, by rw [← ha, hba]⟩⟩
            }
            · injection hc with hpair2
              rw [Prod.mk.injEq] at hpair2
              obtain ⟨rfl, rfl⟩ := hpair2
              obtain ⟨hm1, hm12, hab⟩ := mes2_sound a b _ h2
              obtain ⟨hrest, hy9⟩ := anoQuatro_sound sep _ _ h4
              refine ⟨hm1, hm12, hy1, hy9, Or.inl ?_⟩
              rw [← hab, hrest]
              rfl
      · rw [if_neg hy1] at h
        exact absurd h (by simp)
  · intro hf
    obtain ⟨h1, h12, hy1, hy9999, hdisj⟩ := hf
    rcases hdisj with ht | ⟨h9, ht⟩
    · obtain ⟨a, b, hab⟩ := pad2_dois m h1 h12
      rw [ht, hab]
      have hm2 := mes2_completo m h1 h12 a b hab
      rw [strptimeMesAno]
      show (match casaMesAno sep (a :: b :: (sep :: anoTexto4 y)) with
        | some (m, y) => if 1 ≤ y then some (m, y) else none
        | none => none) = _
      rw [casaMesAno]
      simp only [hm2, anoQuatro_anoTexto4 sep y hy9999]
      rw [if_pos hy1]
    · rw [ht]
      rw [strptimeMesAno]
      show (match casaMesAno sep (digitoChar m :: sep :: anoTexto4 y) with
        | some (m, y) => if 1 ≤ y then some (m, y) else none
        | none => none) = _
      rw [casaMesAno]
      obtain ⟨hd, h0, hv⟩ := digitoChar_um_a_nove m h1 h9
      have hum : mesUmDigito (digitoChar m) = some m := by
        rw [mesUmDigito, if_pos (by simp [hd, h0]), hv]
      rcases h2 : mesDoisDigitos (digitoChar m) sep with _ | m2 <;>
        simp only [h2, anoQuatro_quatro sep y, hum,
          anoQuatro_anoTexto4 sep y hy9999] <;>
        rw [if_pos hy1]

/-- No input is simultaneously of the slash shape and the dash shape:
the separator position holds a different character, or the lengths
differ. -/
theorem forma_incompativel (t : List Char) (m y m' y' : Nat)
    (h1 : FormaCompetencia '/' t m y) (h2 : FormaCompetencia '-' t m' y') : False := by
  obtain ⟨hm1, hm12, _, _, hd1⟩ := h1
  obtain ⟨hm1', hm12', _, _, hd2⟩ := h2
  rcases hd1 with ht1 | ⟨_, ht1⟩ <;> rcases hd2 with ht2 | ⟨_, ht2⟩
  · obtain ⟨a, b, hab⟩ := pad2_dois m hm1 hm12
    obtain ⟨a', b', hab'⟩ := pad2_dois m' hm1' hm12'
    rw [ht1, hab] at ht2
    rw [hab'] at ht2
    simp only [List.cons_append, List.nil_append, List.cons.injEq] at ht2
    obtain ⟨_, _, hsep, _⟩ := ht2
    exact absurd hsep (by decide)
  · obtain ⟨a, b, hab⟩ := pad2_dois m hm1 hm12
    have hl1 : t.length = 7 := by
      rw [ht1, hab]
      rfl
    have hl2 : t.length = 6 := by
      rw [ht2]
      rfl
    omega
  · obtain ⟨a', b', hab'⟩ := pad2_dois m' hm1' hm12'
    have hl1 : t.length = 6 := by
      rw [ht1]
      rfl
    have hl2 : t.length = 7 := by
      rw [ht2, hab']
      rfl
    omega
  · rw [ht1] at ht2
    simp only [List.cons.injEq] at ht2
    obtain ⟨_, hsep, _⟩ := ht2
    exact absurd hsep (by decide)

/-- Full behaviour of `normalizar_competencia` on a non-empty input:
the returned literal is the stripped input, an input of an accepted
shape (with either separator) yields the ISO first-of-month, and any
other input yields `none`. -/
theorem normalizar_competencia_nao_vazia (s : String) (hs : s ≠ "") :
    (normalizar_competencia (some s)).2 = ⟨tiraEspacos s.data⟩ ∧
    (∀ m y, FormaCompetencia '/' (tiraEspacos s.data) m y →
      (normalizar_competencia (some s)).1 = some (isoPrimeiroDia m y)) ∧
    (∀ m y, FormaCompetencia '-' (tiraEspacos s.data) m y →
      (normalizar_competencia (some s)).1 = some (isoPrimeiroDia m y)) ∧
    ((∀ m y, ¬FormaCompetencia '/' (tiraEspacos s.data) m y ∧
             ¬FormaCompetencia '-' (tiraEspacos s.data) m y) →
      (normalizar_competencia (some s)).1 = none) := by
  refine ⟨?_, ?_, ?_, ?_⟩
  · rcases h1 : strptimeMesAno '/' (tiraEspacos s.data) with _ | ⟨m, y⟩ <;>
      rcases h2 : strptimeMesAno '-' (tiraEspacos s.data) with _ | ⟨m', y'⟩ <;>
      simp [normalizar_competencia, hs, h1, h2]
  · intro m y hf
    have h1 : strptimeMesAno '/' (tiraEspacos s.data) = some (m, y) :=
      (strptime_iff '/' _ m y).mpr hf
    simp [normalizar_competencia, hs, h1]
  · intro m y hf
    have h2 : strptimeMesAno '-' (tiraEspacos s.data) = some (m, y) :=
      (strptime_iff '-' _ m y).mpr hf
    rcases h1 : strptimeMesAno '/' (tiraEspacos s.data) with _ | ⟨m', y'⟩
    · simp [normalizar_competencia, hs, h1, h2]
    · exact absurd ((strptime_iff '/' _ m' y').mp h1)
        (fun hf' => forma_incompativel _ m' y' m y hf' hf)
  · intro hnada
    rcases h1 : strptimeMesAno '/' (tiraEspacos s.data) with _ | ⟨m', y'⟩
    · rcases h2 : strptimeMesAno '-' (tiraEspacos s.data) with _ | ⟨m'', y''⟩
      · simp [normalizar_competencia, hs, h1, h2]
      · exact absurd ((strptime_iff '-' _ m'' y'').mp h2) (hnada m'' y'').2
    · exact absurd ((strptime_iff '/' _ m' y').mp h1) (hnada m' y').1

/-! ### Decidable equality for `Except` results and small projections -/

def exceptDecEq [DecidableEq ε] [DecidableEq α] : DecidableEq (Except ε α)
  | .ok x, .ok y =>
    if h : x = y then isTrue (by rw [h])
    else isFalse (fun hh => by injection hh; contradiction)
  | .ok _, .error _ => isFalse (fun hh => by injection hh)
  | .error _, .ok _ => isFalse (fun hh => by injection hh)
  | .error e, .error f =>
    if h : e = f then isTrue (by rw [h])
    else isFalse (fun hh => by injection hh; contradiction)

instance [DecidableEq ε] [DecidableEq α] : DecidableEq (Except ε α) := exceptDecEq

/-- The `total_linhas` value of a parse result. -/
def totalLinhasDe (r : Py ParseResultado) : Option Nat :=
  match r with
  | .ok p => p.total_linhas
  | .error _ => none

/-- The competency year of the first parsed record of a parse result. -/
def anoPrimeiroRegistro (r : Py ParseResultado) : Option (Option Int) :=
  match r with
  | .ok p => ((p.linhas.getD []).get? 0).map Registro.competencia_ano
  | .error _ => none

/-! ### Concrete fixtures used by the claims -/

def cabVazio : Cabecalho := ⟨none, none, none, none, none⟩

/-- Two rows sharing the `(ano, mes, documento_tomador)` sort key but
differing in category and amount. -/
def linhaCatA : Linha :=
  ⟨some 2023, some 1, none, none, some "123", some "A", some 1, none, some false⟩

def linhaCatB : Linha :=
  ⟨some 2023, some 1, none, none, some "123", some "B", some 2, none, some false⟩

def linhaJanAnterior : Linha :=
  ⟨some 2023, some 1, some "2023-01-01", some "01/2023", some "123", some "A",
   some 1000, some "1.000,00", some false⟩

def linhaJanNova : Linha :=
  ⟨some 2023, some 1, some "2023-01-01", some "01/2023", some "123", some "A",
   some 1000, some "1.000,00", some false⟩

def linhaJanNova1200 : Linha :=
  ⟨some 2023, some 1, some "2023-01-01", some "01/2023", some "123", some "A",
   some 1200, some "1.200,00", some false⟩

def linhaFevNova : Linha :=
  ⟨some 2023, some 2, some "2023-02-01", some "02/2023", some "123", some "A",
   some 500, some "500,00", some false⟩

/-- New-row variant of the January row with an unset amount. -/
def linhaSemRemun : Linha :=
  ⟨some 2023, some 1, some "2023-01-01", some "01/2023", some "123", some "A",
   none, some "-", some false⟩

/-- As `linhaSemRemun` but with the amount zero instead of unset. -/
def linhaComZero : Linha :=
  ⟨some 2023, some 1, some "2023-01-01", some "01/2023", some "123", some "A",
   some 0, some "-", some false⟩

/-- Prior and new rows whose competency literal failed to parse. -/
def linhaSemCompetenciaAntiga : Linha :=
  ⟨none, none, none, some "xx/13", some "123", some "A", some 100, none, none⟩

def linhaSemCompetenciaNova : Linha :=
  ⟨none, none, none, some "xx/13", some "123", some "A", some 200, none, none⟩

/-- A `GFIP`-tagged table line with 14 whitespace tokens (one more
than the 13 columns of the channel). -/
def linhaGfip14 : String :=
  "GFIP 123 16889469390 07/2023 12345678000195 507 01 115 01/08/2023 13 1.000,00 0,00 N EXTRA"

/-- The record the engine assembles from `linhaGfip14`. -/
def registroGfip14 : Registro :=
  { fonte := "GFIP", numero_documento := some "123", nit := "16889469390",
    competencia_literal := "07/2023", competencia_date := some "2023-07-01",
    competencia_ano := some 2023, competencia_mes := some 7,
    documento_tomador := some "12345678000195",
    documento_tomador_tipo := some "CNPJ_COMPLETO",
    fpas := some "507", categoria_codigo := some "01", codigo_gfip := some "115",
    data_envio_literal := some "01/08/2023", data_envio_date := some "2023-08-01",
    tipo_remuneracao := some "13", remuneracao_literal := "1.000,00",
    remuneracao := some 1000, valor_retido_literal := "0,00", valor_retido := some 0,
    extemporaneo_literal := some "N", extemporaneo := some false }

def textoGfip14 : String := "Fonte NIT Compet Valor Retido\n" ++ linhaGfip14

/-- An `ESOCIAL`-tagged table line with 12 tokens, carrying a numeric
token in the category position and in the withheld-amount position. -/
def linhaEsocial12 : String :=
  "ESOCIAL 999 16889469390 08/2023 12345678000195 507 13 02/09/2023 11 2.500,00 150,00 S"

/-- The record the engine assembles from `linhaEsocial12`. -/
def registroEsocial12 : Registro :=
  { fonte := "ESOCIAL", numero_documento := some "999", nit := "16889469390",
    competencia_literal := "08/2023", competencia_date := some "2023-08-01",
    competencia_ano := some 2023, competencia_mes := some 8,
    documento_tomador := some "12345678000195",
    documento_tomador_tipo := some "CNPJ_COMPLETO",
    fpas := some "507", categoria_codigo := some "13", codigo_gfip := none,
    data_envio_literal := some "02/09/2023", data_envio_date := some "2023-09-02",
    tipo_remuneracao := some "11", remuneracao_literal := "2.500,00",
    remuneracao := some 2500, valor_retido_literal := "150,00", valor_retido := some 150,
    extemporaneo_literal := some "S", extemporaneo := some true }

/-- A `modelo_2` document whose one table row has an unparseable
competency literal (`13/2023`). -/
def textoCompetenciaInvalida : String :=
  "CONSULTA VALORES CI GFIP/eSocial/INSS\n" ++
  "Fonte NIT Compet Valor Retido\n" ++
  "GFIP 123 16889469390 13/2023 12345678000195 507 01 115 01/08/2023 13 1.000,00 0,00 N"

/-- The dict returned by `parse_ci_gfip` on an unidentified layout. -/
def resultadoNaoIdentificado : ParseResultado :=
  ⟨none, none, none, none, some "layout_nao_identificado"⟩

/-- Rows identical except that where one has an unset amount the other
may have the amount zero. -/
def RemuneracaoZeroEquiv (l1 l2 : Linha) : Prop :=
  l1.competencia_ano = l2.competencia_ano ∧ l1.competencia_mes = l2.competencia_mes ∧
  l1.competencia_date = l2.competencia_date ∧
  l1.competencia_literal = l2.competencia_literal ∧
  l1.documento_tomador = l2.documento_tomador ∧
  l1.categoria_codigo = l2.categoria_codigo ∧
  l1.remuneracao_literal = l2.remuneracao_literal ∧
  l1.extemporaneo = l2.extemporaneo ∧
  (l1.remuneracao = l2.remuneracao ∨ (l1.remuneracao = none ∧ l2.remuneracao = some 0) ∨
   (l1.remuneracao = some 0 ∧ l2.remuneracao = none))

theorem linha_norm_equiv (l1 l2 : Linha) (h : RemuneracaoZeroEquiv l1 l2) :
    linha_norm l1 = linha_norm l2 := by
  obtain ⟨h1, h2, _, _, h5, h6, _, h8, h9⟩ := h
  rw [linha_norm, linha_norm, h1, h2, h5, h6, h8]
  rcases h9 with h9 | ⟨ha, hb⟩ | ⟨ha, hb⟩
  · rw [h9]
  · rw [ha, hb]
    rfl
  · rw [ha, hb]
    rfl

/-! ### The claims -/

/-- Claim C1: `comparar_competencias` keys each new row by
`(competency year, competency month, taxpayer document)` against the
prior rows and sends it to exactly one of the three output lists — a
complement when the key is absent, a rectification carrying both
amounts and both literals when the key is present with a numerically
different amount, unchanged when the amounts agree; in particular the
spec's two concrete diff scenarios hold. -/
theorem comparar_competencias_correto :
    (∀ antigas novas : List Linha, comparar_competencias antigas novas =
      (novas.filter (fun l => (mapa_antigas antigas (chave_linha l)).isNone),
       novas.filterMap (fun l =>
         match mapa_antigas antigas (chave_linha l) with
         | some antiga =>
           if antiga.remuneracao.getD 0 ≠ l.remuneracao.getD 0 then
             some (mkRetificacao antiga l (antiga.remuneracao.getD 0) (l.remuneracao.getD 0))
           else none
         | none => none),
       novas.filter (fun l =>
         match mapa_antigas antigas (chave_linha l) with
         | some antiga => decide (antiga.remuneracao.getD 0 = l.remuneracao.getD 0)
         | none => false))) ∧
    (∀ antigas novas : List Linha,
      (comparar_competencias antigas novas).1.length +
      (comparar_competencias antigas novas).2.1.length +
      (comparar_competencias antigas novas).2.2.length = novas.length) ∧
    comparar_competencias [linhaJanAnterior] [linhaJanNova, linhaFevNova] =
      ([linhaFevNova], [], [linhaJanNova]) ∧
    comparar_competencias [linhaJanAnterior] [linhaJanNova1200, linhaFevNova] =
      ([linhaFevNova],
       [mkRetificacao linhaJanAnterior linhaJanNova1200 1000 1200], []) ∧
    (mkRetificacao linhaJanAnterior linhaJanNova1200 1000 1200).valor_antigo = 1000 ∧
    (mkRetificacao linhaJanAnterior linhaJanNova1200 1000 1200).valor_novo = 1200 ∧
    (mkRetificacao linhaJanAnterior linhaJanNova1200 1000 1200).valor_antigo_literal =
      some "1.000,00" ∧
    (mkRetificacao linhaJanAnterior linhaJanNova1200 1000 1200).valor_novo_literal =
      some "1.200,00" :=
  ⟨comparar_eq, comparar_contagem, by decide, by decide, by decide, by decide,
   by decide, by decide⟩

/-- Claim C2 (code bug): the canonical serialised structure whose
SHA-256 hex digest `gerar_hash_conteudo` returns is NOT invariant
under reordering the rows — two distinct rows sharing the sort key
`(ano, mes, documento_tomador)` keep their input order under the
stable sort, so the two orders serialise (and therefore hash)
differently, against the code's own stated purpose of the sort
("garantir estabilidade do hash"). -/
theorem gerar_hash_depende_da_ordem :
    [linhaCatA, linhaCatB].Perm [linhaCatB, linhaCatA] ∧
    chaveNorm (linha_norm linhaCatA) = chaveNorm (linha_norm linhaCatB) ∧
    linhaCatA ≠ linhaCatB ∧
    gerar_hash_conteudo_txt cabVazio [linhaCatA, linhaCatB] ≠
      gerar_hash_conteudo_txt cabVazio [linhaCatB, linhaCatA] :=
  ⟨List.Perm.swap linhaCatB linhaCatA [], by decide, by decide, by decide⟩

/-- Claim C3 counterexample: a new record with an unparseable
competency (year and month unset) DOES match a prior record with an
unparseable competency and the same taxpayer document — the code keys
it as `(None, None, doc)` rather than excluding it — so it is
classified as a rectification, not as a complement. -/
theorem competencia_sem_parse_casa_contraexemplo :
    linhaSemCompetenciaNova.competencia_ano = none ∧
    linhaSemCompetenciaNova.competencia_mes = none ∧
    linhaSemCompetenciaAntiga.competencia_ano = none ∧
    linhaSemCompetenciaAntiga.competencia_mes = none ∧
    comparar_competencias [linhaSemCompetenciaAntiga] [linhaSemCompetenciaNova] =
      ([], [mkRetificacao linhaSemCompetenciaAntiga linhaSemCompetenciaNova 100 200],
       []) := by
  decide

/-- Claim C3 (amended): records with an unparseable competency are NOT
excluded from diff keys — they are keyed with unset year and month; a
prior hit always carries exactly the same key triple, so such a record
never matches a prior row whose competency parsed, and it does match a
prior row with an unparseable competency and the same taxpayer
document; such rows are still emitted and counted in the record-set
total. -/
theorem chaves_competencia_sem_parse :
    (∀ (antigas : List Linha) (l ant : Linha),
      mapa_antigas antigas (chave_linha l) = some ant →
      ant.competencia_ano = l.competencia_ano ∧
      ant.competencia_mes = l.competencia_mes ∧
      ant.documento_tomador = l.documento_tomador) ∧
    (∀ (antigas : List Linha) (l ant : Linha), l.competencia_ano = none →
      mapa_antigas antigas (chave_linha l) = some ant → ant.competencia_ano = none) ∧
    totalLinhasDe (parse_ci_gfip textoCompetenciaInvalida) = some 1 ∧
    anoPrimeiroRegistro (parse_ci_gfip textoCompetenciaInvalida) = some none := by
  have h1 : ∀ (antigas : List Linha) (l ant : Linha),
      mapa_antigas antigas (chave_linha l) = some ant →
      ant.competencia_ano = l.competencia_ano ∧
      ant.competencia_mes = l.competencia_mes ∧
      ant.documento_tomador = l.documento_tomador := by
    intro antigas l ant h
    have hk := mapa_antigas_chave antigas (chave_linha l) ant h
    rw [chave_linha, chave_linha, Prod.mk.injEq, Prod.mk.injEq] at hk
    exact ⟨hk.1, hk.2.1, hk.2.2⟩
  refine ⟨h1, ?_, by decide, by decide⟩
  intro antigas l ant hl h
  rw [(h1 antigas l ant h).1, hl]

/-- Claim C3 witness: the amended key facts applied to the concrete
unparseable-competency rows. -/
theorem chaves_competencia_sem_parse_witness :
    linhaSemCompetenciaAntiga.competencia_ano = none ∧
    linhaSemCompetenciaAntiga.documento_tomador =
      linhaSemCompetenciaNova.documento_tomador :=
  ⟨chaves_competencia_sem_parse.2.1 [linhaSemCompetenciaAntiga]
      linhaSemCompetenciaNova linhaSemCompetenciaAntiga (by decide) (by decide),
   ((chaves_competencia_sem_parse.1 [linhaSemCompetenciaAntiga]
      linhaSemCompetenciaNova linhaSemCompetenciaAntiga (by decide)).2.2).symm⟩

/-- Claim C4 counterexample: the empty input has zero digits, which
the claim sends to a zero-padded company-root id, but the code's
empty-input guard returns the unknown tag with an empty string. -/
theorem documento_vazio_contraexemplo :
    normalizar_documento_tomador (some "") = ("", "DESCONHECIDO") ∧
    normalizar_documento_tomador (some "") ≠ ("00000000", "CNPJ_RAIZ") ∧
    (so_numeros (some "")).length = 0 := by
  decide

theorem preencheZeros_length (w : Nat) (l : List Char) :
    (preencheZeros w l).length = max w l.length := by
  rw [preencheZeros]
  split
  · simp only [List.length_append, List.length_replicate]
    omega
  · omega

/-- Claim C4 (amended): for every NON-empty input the classification
strips the non-digits and maps by digit count exactly as claimed
(14 full-company, 12 establishment, 11 domestic employer, at most 8
zero-padded root, 9-13 other than 11 and 12 truncated to the first 8
digits, 15 or more unknown with the digits retained, a 10-digit input
truncating to its first 8); the empty input alone short-circuits to
unknown with an empty digit string. -/
theorem normalizar_documento_classificacao :
    normalizar_documento_tomador (some "") = ("", "DESCONHECIDO") ∧
    (∀ s : String, s ≠ "" →
      (((so_numeros (some s)).data.length = 14 →
        normalizar_documento_tomador (some s) =
          (⟨(so_numeros (some s)).data⟩, "CNPJ_COMPLETO")) ∧
       ((so_numeros (some s)).data.length = 12 →
        normalizar_documento_tomador (some s) =
          (⟨(so_numeros (some s)).data⟩, "CEI")) ∧
       ((so_numeros (some s)).data.length = 11 →
        normalizar_documento_tomador (some s) =
          (⟨(so_numeros (some s)).data⟩, "CPF")) ∧
       ((so_numeros (some s)).data.length ≤ 8 →
        normalizar_documento_tomador (some s) =
          (⟨preencheZeros 8 (so_numeros (some s)).data⟩, "CNPJ_RAIZ") ∧
        (normalizar_documento_tomador (some s)).1.length = 8) ∧
       (9 ≤ (so_numeros (some s)).data.length → (so_numeros (some s)).data.length ≤ 13 →
        (so_numeros (some s)).data.length ≠ 11 → (so_numeros (some s)).data.length ≠ 12 →
        normalizar_documento_tomador (some s) =
          (⟨preencheZeros 8 ((so_numeros (some s)).data.take 8)⟩, "CNPJ_RAIZ") ∧
        (normalizar_documento_tomador (some s)).1.length = 8) ∧
       (15 ≤ (so_numeros (some s)).data.length →
        normalizar_documento_tomador (some s) =
          (⟨(so_numeros (some s)).data⟩, "DESCONHECIDO")))) ∧
    normalizar_documento_tomador (some "1234567890") = ("12345678", "CNPJ_RAIZ") := by
  refine ⟨by decide, ?_, by decide⟩
  intro s hs
  simp only [normalizar_documento_tomador, hs, if_false]
  refine ⟨?_, ?_, ?_, ?_, ?_, ?_⟩
  · intro h14
    rw [if_pos h14]
  · intro h12
    rw [if_neg (by omega), if_pos h12]
  · intro h11
    rw [if_neg (by omega), if_neg (by omega), if_pos h11]
  · intro h8
    rw [if_neg (by omega), if_neg (by omega), if_neg (by omega), if_pos h8]
    refine ⟨rfl, ?_⟩
    show (preencheZeros 8 (so_numeros (some s)).data).length = 8
    rw [preencheZeros_length]
    omega
  · intro h9 h13 hn11 hn12
    rw [if_neg (by omega), if_neg (by omega), if_neg (by omega), if_neg (by omega),
      if_pos (by simp only [Bool.and_eq_true, decide_eq_true_eq]; omega)]
    refine ⟨rfl, ?_⟩
    show (preencheZeros 8 ((so_numeros (some s)).data.take 8)).length = 8
    rw [preencheZeros_length, List.length_take]
    omega
  · intro h15
    rw [if_neg (by omega), if_neg (by omega), if_neg (by omega), if_neg (by omega),
      if_neg (by simp only [Bool.and_eq_true, decide_eq_true_eq, not_and]; omega)]

/-- Claim C4 witness: the amended classification applied to concrete
14-digit and 10-digit inputs. -/
theorem normalizar_documento_classificacao_witness :
    normalizar_documento_tomador (some "12.345.678/0001-95") =
      ("12345678000195", "CNPJ_COMPLETO") := by
  rw [(normalizar_documento_classificacao.2.1 "12.345.678/0001-95" (by decide)).1
    (by decide)]
  decide

/-- Claim C5 counterexample: a `GFIP`-tagged table line with 14
whitespace tokens — a count matching NEITHER known column variant
(13 for `GFIP`, 12 for `ESOCIAL`) — is not dropped: the engine maps it
to a record, both at the single-line level and through the full table
loop. -/
theorem linha_14_tokens_contraexemplo :
    (separaEspacosStr linhaGfip14).length = 14 ∧
    paraMaiusculasStr ((separaEspacosStr linhaGfip14).headD "") = "GFIP" ∧
    linha_para_registro linhaGfip14 = .ok (some registroGfip14) ∧
    linhas_modelo_2 textoGfip14 = .ok [registroGfip14] := by
  decide

/-- Claim C5 (amended): a tagged line is mapped to a record exactly
when its token count is AT LEAST the channel's column count (13 for
`GFIP`, 12 for `ESOCIAL`); surplus tokens are ignored rather than
rejected, tagged lines with fewer tokens are silently dropped, and
footer lines, blank token lists and lines not starting with a known
source tag never produce records. -/
theorem linhas_modelo_2_limiar :
    (∀ (linha p0 : String) (resto : List String),
      comecaCom "Página ".data linha.data = false →
      separaEspacosStr linha = p0 :: resto →
      ((paraMaiusculasStr p0 = "GFIP" →
        (13 ≤ (p0 :: resto).length → ∃ r, linha_para_registro linha = .ok (some r)) ∧
        ((p0 :: resto).length < 13 → linha_para_registro linha = .ok none)) ∧
       (paraMaiusculasStr p0 = "ESOCIAL" →
        (12 ≤ (p0 :: resto).length → ∃ r, linha_para_registro linha = .ok (some r)) ∧
        ((p0 :: resto).length < 12 → linha_para_registro linha = .ok none)) ∧
       (paraMaiusculasStr p0 ≠ "GFIP" → paraMaiusculasStr p0 ≠ "ESOCIAL" →
        linha_para_registro linha = .ok none))) ∧
    (∀ linha : String, comecaCom "Página ".data linha.data = true →
      linha_para_registro linha = .ok none) ∧
    (∀ linha : String, comecaCom "Página ".data linha.data = false →
      separaEspacosStr linha = [] → linha_para_registro linha = .ok none) := by
  refine ⟨?_, linha_pagina, fun linha hf hp => linha_vazia linha hf hp⟩
  intro linha p0 resto hfoot hpr
  refine ⟨?_, ?_, linha_sem_fonte linha p0 resto hfoot hpr⟩
  · intro hfonte
    exact ⟨fun hlen => linha_gfip_emite linha p0 resto hfoot hpr hfonte hlen,
      fun hlen => linha_gfip_curta linha p0 resto hfoot hpr hfonte hlen⟩
  · intro hfonte
    refine ⟨fun hlen => ?_, fun hlen => linha_esocial_curta linha p0 resto hfoot hpr hfonte hlen⟩
    obtain ⟨t6, h6⟩ := get?_de_comprimento (p0 :: resto) 6 (by omega)
    obtain ⟨t10, h10⟩ := get?_de_comprimento (p0 :: resto) 10 (by omega)
    obtain ⟨r, hr, _⟩ :=
      linha_esocial_emite linha p0 resto hfoot hpr hfonte hlen t6 t10 h6 h10
    exact ⟨r, hr⟩

/-- Claim C5 witness: the amended threshold rule applied to a concrete
short `GFIP` line (three tokens, dropped silently). -/
theorem linhas_modelo_2_limiar_witness :
    linha_para_registro "GFIP 1 2" = .ok none :=
  ((linhas_modelo_2_limiar.1 "GFIP 1 2" "GFIP" ["1", "2"] (by decide)
    (by decide)).1 (by decide)).2 (by decide)

/-- Claim C6 counterexample: an eSocial row with numeric tokens in the
category and withheld-amount positions yields a record whose
administrative-category code IS the seventh token and whose withheld
amount IS the normalised eleventh token — only the filing-submission
code is unset, against the claim that all three are unset. -/
theorem esocial_campos_contraexemplo :
    linha_para_registro linhaEsocial12 = .ok (some registroEsocial12) ∧
    registroEsocial12.categoria_codigo = some "13" ∧
    registroEsocial12.categoria_codigo ≠ none ∧
    registroEsocial12.valor_retido = some 150 ∧
    registroEsocial12.valor_retido ≠ none ∧
    registroEsocial12.codigo_gfip = none := by
  decide

/-- Claim C6 (amended): a record assembled from an eSocial row leaves
only the filing-submission code unset; the administrative-category
code is taken verbatim from the seventh token and the withheld amount
is the currency normalisation of the eleventh token, whether or not
that token is numeric. -/
theorem esocial_campos :
    ∀ (linha p0 : String) (resto : List String) (t6 t10 : String),
      comecaCom "Página ".data linha.data = false →
      separaEspacosStr linha = p0 :: resto →
      paraMaiusculasStr p0 = "ESOCIAL" →
      12 ≤ (p0 :: resto).length →
      (p0 :: resto).get? 6 = some t6 →
      (p0 :: resto).get? 10 = some t10 →
      ∃ r, linha_para_registro linha = .ok (some r) ∧ r.fonte = "ESOCIAL" ∧
        r.codigo_gfip = none ∧ r.categoria_codigo = some t6 ∧
        r.valor_retido = (normalizar_moeda (some t10)).1 ∧
        r.valor_retido_literal = (normalizar_moeda (some t10)).2 := by
  intro linha p0 resto t6 t10 hfoot hpr hfonte hlen h6 h10
  exact linha_esocial_emite linha p0 resto hfoot hpr hfonte hlen t6 t10 h6 h10

/-- Claim C6 witness: the amended field rule applied to the concrete
eSocial line; in particular the line is not dropped. -/
theorem esocial_campos_witness :
    linha_para_registro linhaEsocial12 ≠ .ok none := by
  obtain ⟨r, hr, _⟩ := esocial_campos linhaEsocial12 "ESOCIAL"
    ["999", "16889469390", "08/2023", "12345678000195", "507", "13",
     "02/09/2023", "11", "2.500,00", "150,00", "S"] "13" "150,00"
    (by decide) (by decide) (by decide) (by decide) (by decide) (by decide)
  rw [hr]
  intro hcontra
  injection hcontra with h1
  exact Option.noConfusion h1

/-- Claim C7 counterexample: on keyword-free text the entry point
returns the dict holding ONLY the error value — the layout field is
absent (not the unknown tag) and the record-list field is absent (not
an empty list), so the claim's description of the returned dict is
wrong on those two fields. -/
theorem layout_desconhecido_contraexemplo :
    parse_ci_gfip "relatorio sem nenhuma palavra reconhecida" =
      .ok resultadoNaoIdentificado ∧
    resultadoNaoIdentificado.erro = some "layout_nao_identificado" ∧
    resultadoNaoIdentificado.layout = none ∧
    resultadoNaoIdentificado.layout ≠ some "layout_nao_identificado" ∧
    resultadoNaoIdentificado.linhas = none ∧
    resultadoNaoIdentificado.linhas ≠ some [] ∧
    detectar_layout_ci_gfip "relatorio sem nenhuma palavra reconhecida" =
      "layout_nao_identificado" := by
  decide

/-- Claim C7 (amended): on text containing neither the layout-B header
phrase nor all three layout-A column keywords (upper-cased match), the
detector reports the unknown tag and the entry point returns
immediately a dict holding only the error value `layout_nao_identificado`;
the layout, header, record-list and total fields are all absent. -/
theorem layout_desconhecido_resultado :
    ∀ texto : String,
      contem "CONSULTA VALORES CI GFIP/ESOCIAL/INSS".data
        (paraMaiusculas texto.data) = false →
      (contem "COMPET".data (paraMaiusculas texto.data) = false ∨
       contem "FPAS".data (paraMaiusculas texto.data) = false ∨
       contem "CATEG".data (paraMaiusculas texto.data) = false) →
      detectar_layout_ci_gfip texto = "layout_nao_identificado" ∧
      parse_ci_gfip texto = .ok resultadoNaoIdentificado := by
  intro texto h1 h2
  have hdet : detectar_layout_ci_gfip texto = "layout_nao_identificado" := by
    rw [detectar_layout_ci_gfip]
    rw [if_neg (by simp [h1])]
    rw [if_neg (by rcases h2 with h | h | h <;> simp [h])]
  refine ⟨hdet, ?_⟩
  rw [parse_ci_gfip]
  simp only [hdet]
  rw [if_neg (by decide), if_neg (by decide)]
  rfl

/-- Claim C7 witness: the amended fallback applied to a concrete
keyword-free input. -/
theorem layout_desconhecido_resultado_witness :
    parse_ci_gfip "x" = .ok resultadoNaoIdentificado :=
  (layout_desconhecido_resultado "x" (by decide) (Or.inl (by decide))).2

/-- Claim C8: `parse_ci_gfip` returns a result value on every input
and never lets an exception escape: every fallible per-field or
per-row step is absorbed locally (unset fields or dropped rows), the
single raise-capable subscript outside a `try` block sits behind its
emptiness guard, and the document-level layout failure is returned as
an error value in the dict, not raised. -/
theorem parse_ci_gfip_total (texto : String) :
    ∃ r, parse_ci_gfip texto = .ok r := by
  rw [parse_ci_gfip]
  split
  · exact ⟨_, rfl⟩
  · split
    · exact parse_modelo_2_ok texto
    · exact ⟨_, rfl⟩

/-- Claim C9 counterexample: the code also accepts a one-digit month —
`"7/2023"` (six characters, so not of the form `MM/YYYY` or `MM-YYYY`)
normalises to July 2023 instead of the claimed `None` — and on failure
it returns the whitespace-stripped literal, not the untouched input. -/
theorem competencia_um_digito_contraexemplo :
    normalizar_competencia (some "7/2023") = (some "2023-07-01", "7/2023") ∧
    "7/2023".data.length = 6 ∧
    "07/2023".data.length = 7 ∧
    normalizar_competencia (some " 13/2023 ") = (none, "13/2023") ∧
    (" 13/2023 " : String) ≠ "13/2023" := by
  decide

/-- Claim C9 (amended): competency normalisation strips the input and
accepts exactly the inputs of shape month/four-digit-year with a slash
or a dash, where the month is two digits `01`-`12` OR a single digit
`1`-`9` and the year is at least 1; accepted inputs yield the ISO
first day of that month, every other input yields `None`, and in both
cases the returned literal is the STRIPPED input (empty and `None`
inputs yield `None` with an empty literal). -/
theorem normalizar_competencia_caracterizacao :
    (∀ s : String, s ≠ "" →
      (normalizar_competencia (some s)).2 = ⟨tiraEspacos s.data⟩ ∧
      (∀ m y, FormaCompetencia '/' (tiraEspacos s.data) m y →
        (normalizar_competencia (some s)).1 = some (isoPrimeiroDia m y)) ∧
      (∀ m y, FormaCompetencia '-' (tiraEspacos s.data) m y →
        (normalizar_competencia (some s)).1 = some (isoPrimeiroDia m y)) ∧
      ((∀ m y, ¬FormaCompetencia '/' (tiraEspacos s.data) m y ∧
               ¬FormaCompetencia '-' (tiraEspacos s.data) m y) →
        (normalizar_competencia (some s)).1 = none)) ∧
    normalizar_competencia (some "07/2023") = (some "2023-07-01", "07/2023") ∧
    normalizar_competencia (some "13/2023") = (none, "13/2023") ∧
    normalizar_competencia none = (none, "") ∧
    normalizar_competencia (some "") = (none, "") :=
  ⟨normalizar_competencia_nao_vazia, by decide, by decide, rfl, rfl⟩

/-- Claim C9 witness: the amended characterisation applied to concrete
inputs — a padded literal is stripped, and the slash shape with month
7 and year 2023 yields the ISO first of July. -/
theorem normalizar_competencia_caracterizacao_witness :
    (normalizar_competencia (some " 07/2023 ")).2 = "07/2023" ∧
    (normalizar_competencia (some "07/2023")).1 = some (isoPrimeiroDia 7 2023) := by
  refine ⟨?_, ?_⟩
  · rw [(normalizar_competencia_caracterizacao.1 " 07/2023 " (by decide)).1]
    decide
  · exact (normalizar_competencia_caracterizacao.1 "07/2023" (by decide)).2.1 7 2023
      (by refine ⟨by omega, by omega, by omega, by omega, Or.inl (by decide)⟩)

/-- Claim C10: both the fingerprint and the diff treat an unset
remuneration as the amount zero — two row lists agreeing everywhere
except `None` versus `0.0` remunerations serialise (and hence hash)
identically, and a new row with an unset amount whose key matches a
prior row with a nonzero amount becomes a rectification with
`valor_novo = 0` and `valor_antigo` the prior amount. -/
theorem remuneracao_ausente_como_zero :
    (∀ (cab : Cabecalho) (la lb : List Linha), List.Forall₂ RemuneracaoZeroEquiv la lb →
      gerar_hash_conteudo_txt cab la = gerar_hash_conteudo_txt cab lb) ∧
    (∀ (antigas novas : List Linha) (l ant : Linha) (v : ℚ),
      l ∈ novas → l.remuneracao = none →
      mapa_antigas antigas (chave_linha l) = some ant →
      ant.remuneracao = some v → v ≠ 0 →
      mkRetificacao ant l v 0 ∈ (comparar_competencias antigas novas).2.1 ∧
      (mkRetificacao ant l v 0).valor_novo = 0 ∧
      (mkRetificacao ant l v 0).valor_antigo = v) := by
  constructor
  · intro cab la lb h
    have hmap : la.map linha_norm = lb.map linha_norm := by
      induction h with
      | nil => rfl
      | cons hrel _ ih =>
        simp only [List.map_cons, ih, linha_norm_equiv _ _ hrel]
    rw [gerar_hash_conteudo_txt, gerar_hash_conteudo_txt, hmap]
  · intro antigas novas l ant v hmem hlnone hmapa hant hv
    refine ⟨?_, rfl, rfl⟩
    have hchar := comparar_eq antigas novas
    rw [hchar]
    simp only [List.mem_filterMap]
    refine ⟨l, hmem, ?_⟩
    rw [hmapa]
    show (if ant.remuneracao.getD 0 ≠ l.remuneracao.getD 0 then
        some (mkRetificacao ant l (ant.remuneracao.getD 0) (l.remuneracao.getD 0))
      else none) = some (mkRetificacao ant l v 0)
    rw [hant, hlnone]
    simp only [Option.getD_some, Option.getD_none]
    rw [if_pos hv]

/-- Claim C10 witness: the `None`-versus-zero rules applied to
concrete rows — the serialised fingerprints agree, and the unset-amount
January row is rectified against the 1000-amount prior with new value
zero. -/
theorem remuneracao_ausente_como_zero_witness :
    gerar_hash_conteudo_txt cabVazio [linhaSemRemun] =
      gerar_hash_conteudo_txt cabVazio [linhaComZero] ∧
    mkRetificacao linhaJanAnterior linhaSemRemun 1000 0 ∈
      (comparar_competencias [linhaJanAnterior] [linhaSemRemun]).2.1 :=
  ⟨remuneracao_ausente_como_zero.1 cabVazio [linhaSemRemun] [linhaComZero]
    (List.Forall₂.cons
      ⟨rfl, rfl, rfl, rfl, rfl, rfl, rfl, rfl, Or.inr (Or.inl ⟨rfl, rfl⟩)⟩
      List.Forall₂.nil),
   (remuneracao_ausente_como_zero.2 [linhaJanAnterior] [linhaSemRemun] linhaSemRemun
     linhaJanAnterior 1000 (by decide) (by decide) (by decide) (by decide)
     (by decide)).1⟩

end ApiGfip
